import Mathlib

/-!
Verification of the libredesk conversation message-processing engine
(`internal/conversation`, Go). The Go code is shallowly embedded: each store
table is a Lean list, each stateful operation is an explicit state-passing
function, and external collaborators (media store, channel adapter, SLA store,
template renderer) are modelled by explicit oracle parameters for their
success/failure. SQL statements that live in queries.sql (not part of the
sources here) are modelled from the spec, and marked as such on their
definitions.
-/

namespace Libredesk

/-- Message status enum (`models.MessageStatusReceived/Pending/Sent/Failed`). -/
inductive MessageStatus
  | received
  | pending
  | sent
  | failed
deriving Repr, DecidableEq

/-- Message type enum (`models.MessageIncoming/MessageOutgoing/MessageActivity`). -/
inductive MessageType
  | incoming
  | outgoing
  | activity
deriving Repr, DecidableEq

/-- Sender type enum (`models.SenderTypeAgent/SenderTypeContact`). -/
inductive SenderType
  | agent
  | contact
deriving Repr, DecidableEq

/-- Conversation status enum (`models.StatusOpen/Snoozed/Resolved/Closed/Spam/Trashed`). -/
inductive ConvStatus
  | Open
  | Snoozed
  | Resolved
  | Closed
  | Spam
  | Trashed
deriving Repr, DecidableEq

/-- Status name strings as used by the Go `models` constants. -/
def statusName : ConvStatus → String
  | .Open => "Open"
  | .Snoozed => "Snoozed"
  | .Resolved => "Resolved"
  | .Closed => "Closed"
  | .Spam => "Spam"
  | .Trashed => "Trashed"

/-- `inbox.ChannelEmail`. -/
def ChannelEmail : String := "email"

/-- `models.ContentTypeText`. -/
def ContentTypeText : String := "text"

/-- `models.ContentTypeHTML`. -/
def ContentTypeHTML : String := "html"

/-- A contact (`umodels.User` in its contact role): identity used by the
contact upsert and the conversation-matcher email comparisons. -/
structure Contact where
  id : Nat := 0
  email : String := ""
  contactChannelID : Nat := 0
deriving Repr, DecidableEq

/-- An agent user (`umodels.User`): `GetAgent` / `GetSystemUser` results. -/
structure Agent where
  id : Nat := 0
  firstName : String := ""
  lastName : String := ""
  email : String := ""
  isSystem : Bool := false
deriving Repr, DecidableEq

/-- Whitespace trim over the character list (`strings.TrimSpace`). -/
def trimStr (a : String) : String :=
  String.mk (((a.data.dropWhile Char.isWhitespace).reverse.dropWhile Char.isWhitespace).reverse)

/-- `User.FullName()`. -/
def fullName (a : Agent) : String :=
  trimStr (a.firstName ++ " " ++ a.lastName)

/-- A message row (`models.Message`). `sourceID` is the nullable external
source id (`null.String`); `none` is SQL NULL. -/
structure Message where
  id : Nat := 0
  uuid : String := ""
  conversationID : Nat := 0
  conversationUUID : String := ""
  senderID : Nat := 0
  senderType : SenderType := .contact
  mtype : MessageType := .incoming
  status : MessageStatus := .received
  content : String := ""
  textContent : String := ""
  contentType : String := ""
  isPrivate : Bool := false
  sourceID : Option String := none
  inReplyTo : String := ""
  references : List String := []
  subject : String := ""
  attachments : List String := []
  media : List String := []
  hasCSAT : Bool := false
  inboxID : Nat := 0
  fromAddr : String := ""
deriving Repr, DecidableEq

/-- A conversation row (`models.Conversation`), with the joined contact email
(`Conversation.Contact.Email.String`) denormalised onto the row. -/
structure Conversation where
  id : Nat := 0
  uuid : String := ""
  contactID : Nat := 0
  contactEmail : String := ""
  inboxID : Nat := 0
  status : ConvStatus := .Open
  snoozedUntil : Option Nat := none
  resolvedAt : Option Nat := none
  firstReplyAt : Option Nat := none
  lastReplyAt : Option Nat := none
  waitingSince : Option Nat := none
  referenceNumber : String := ""
  subject : String := ""
  lastMessage : String := ""
  lastMessageAt : Nat := 0
  appliedSLAID : Nat := 0
  slaPolicyID : Nat := 0
  assignedTeamID : Nat := 0
deriving Repr, DecidableEq

/-- The normalized inbound envelope (`models.IncomingMessage`). -/
structure IncomingMessage where
  contact : Contact := {}
  message : Message := {}
  inboxID : Nat := 0
  conversationUUIDFromReplyTo : String := ""
deriving Repr, DecidableEq

/-- An inbox record as seen through the `inbox.Inbox` interface
(`Channel()`, `FromAddress()`, `Identifier()`). -/
structure Inbox where
  id : Nat := 0
  channel : String := "email"
  fromAddress : String := ""
deriving Repr, DecidableEq

/-- Webhook events (`wmodels.Event...`) recorded by `TriggerEvent`. -/
inductive WebhookEvent
  | messageCreated (messageID : Nat)
  | messageUpdated (messageUUID : String) (status : MessageStatus)
  | conversationCreated (conversationID : Nat)
  | conversationStatusChanged (uuid : String) (oldStatus newStatus : ConvStatus)
deriving Repr, DecidableEq

/-- Automation rule evaluation kinds (`amodels.EventConversation...`). -/
inductive AutomationKind
  | messageIncoming
  | messageOutgoing
  | statusChange
deriving Repr, DecidableEq

/-- Automation hook invocations recorded by the model. -/
inductive AutomationEvent
  | newConversation (conversationID : Nat)
  | conversationUpdate (conversationID : Nat) (kind : AutomationKind)
deriving Repr, DecidableEq

/-- The persistent and in-process mutable state reachable from `Manager`:
the store tables, the side-effect logs (webhooks, automation evaluations,
websocket broadcasts, adapter sends, SLA store calls), and the id sequences. -/
structure State where
  contacts : List Contact := []
  contactUpserts : List Contact := []
  agents : List Agent := []
  inboxes : List Inbox := []
  conversations : List Conversation := []
  statuses : List (Nat × ConvStatus) := []
  messages : List Message := []
  participants : List (String × Nat) := []
  webhookEvents : List WebhookEvent := []
  automationEvents : List AutomationEvent := []
  broadcasts : List (String × String) := []
  sentMessages : List Message := []
  slaMetEvents : List Nat := []
  slaNextResponseEvents : List Nat := []
  outgoingProcessing : List Nat := []
  nextContactID : Nat := 1
  nextConversationID : Nat := 1
  nextMessageID : Nat := 1
deriving Repr

/-- ASCII case folding of one character, as a code point. -/
def foldCode (c : Char) : Nat :=
  if 65 ≤ c.toNat ∧ c.toNat ≤ 90 then c.toNat + 32 else c.toNat

/-- `strings.EqualFold`, restricted to ASCII case folding. -/
def eqFold (a b : String) : Bool :=
  a.data.map foldCode == b.data.map foldCode

/-- Modelled from the spec: `stringutil.HTML2Text` (not under src/) derives
plain text from rich content for search indexing and previews; modelled as
stripping everything between angle brackets. -/
def html2Text (content : String) : String :=
  (content.toList.foldl
    (fun (acc : String × Bool) c =>
      if c = '<' then (acc.1, true)
      else if c = '>' then (acc.1, false)
      else if acc.2 then acc
      else (acc.1.push c, acc.2))
    ("", false)).1

/-- Modelled from the spec: `stringutil.ExtractReferenceNumber` (not under
src/) extracts the embedded human reference number from a subject such as
"RE: Test - #392"; modelled as the digit run after the first '#'. -/
def extractReferenceNumber (subject : String) : String :=
  match subject.data.dropWhile (fun c => c ≠ '#') with
  | [] => ""
  | _ :: rest => String.mk (rest.takeWhile Char.isDigit)

/-- Modelled from the spec: `stringutil.ExtractEmail` (not under src/)
extracts the plain email from a "Name <email>" formatted address. -/
def extractEmail (a : String) : Option String :=
  if a.data.contains '<' then
    let inner := (a.data.dropWhile (fun c => c ≠ '<')).drop 1
    let e := inner.takeWhile (fun c => c ≠ '>')
    if e ≠ [] ∧ inner.contains '>' then some (String.mk e) else none
  else if a.data.contains '@' then some a else none

/-- Modelled from the spec: `stringutil.RemoveItemByValue` strips the given
value from the list (used to strip the current message's own source id). -/
def removeItemByValue (l : List String) (v : String) : List String :=
  l.filter (fun x => x ≠ v)

/-- `stringutil.SanitizeEmailHTML` (src part_002). The regex rewrites act only
on the stored content string; here only the final `strings.TrimSpace` is
modelled, the tag-rewriting regexes are left abstract. -/
def sanitizeEmailHTML (html : String) : String :=
  trimStr html

/-- `GetConversation(id, uuid, refNum)`: fetch by numeric id, by UUID, or by
reference number; `none` is the `sql.ErrNoRows` / NotFoundError case. -/
def GetConversation (convs : List Conversation) (id : Nat) (uuid refNum : String) :
    Option Conversation :=
  convs.find? (fun c =>
    (id ≠ 0 && c.id = id) || (uuid ≠ "" && c.uuid = uuid) ||
      (refNum ≠ "" && c.referenceNumber = refNum))

/-- `getConversationUUIDFromMessageUUID`. -/
def getConversationUUIDFromMessageUUID (msgs : List Message) (uuid : String) : String :=
  ((msgs.find? (fun m => m.uuid = uuid)).map (fun m => m.conversationUUID)).getD ""

/-- Modelled from the spec: the SQL behind `messageExistsBySourceID`
(queries.sql is not under src/) returns the conversation id of a message
whose source id is among the given ids; the empty-list guard mirrors the Go
code. `none` is `errConversationNotFound`. -/
def messageExistsBySourceID (msgs : List Message) (ids : List String) : Option Nat :=
  if ids = [] then none
  else (msgs.find? (fun m =>
    match m.sourceID with
    | some sid => ids.contains sid
    | none => false)).map (fun m => m.conversationID)

/-- Modelled from the spec: `CreateContact(*user)` (user store, not under
src/) upserts the contact by email and sets its id; every call mutates the
contact store, which the model records in `contactUpserts`. -/
def createContact (s : State) (c : Contact) : State × Nat :=
  match s.contacts.find? (fun e => e.email = c.email) with
  | some e =>
    ({ s with
        contacts := s.contacts.map (fun x => if x.email = c.email then { c with id := e.id } else x),
        contactUpserts := s.contactUpserts ++ [c] }, e.id)
  | none =>
    ({ s with
        contacts := s.contacts ++ [{ c with id := s.nextContactID }],
        contactUpserts := s.contactUpserts ++ [c],
        nextContactID := s.nextContactID + 1 }, s.nextContactID)

/-- `addConversationParticipant`: idempotent participant registration
(duplicate registration is not an error). -/
def addConversationParticipant (s : State) (userID : Nat) (conversationUUID : String) : State :=
  if s.participants.contains (conversationUUID, userID) then s
  else { s with participants := s.participants ++ [(conversationUUID, userID)] }

/-- The row transformation of `UpdateConversationLastMessage`: the row is
matched by id or uuid as the SQL exec does. -/
def updateLastMessageRow (conversationID : Nat) (conversationUUID lastMessage : String)
    (lastMessageAt : Nat) (c : Conversation) : Conversation :=
  if (conversationID ≠ 0 && c.id = conversationID) || (conversationUUID ≠ "" && c.uuid = conversationUUID) then
    { c with lastMessage := lastMessage, lastMessageAt := lastMessageAt }
  else c

/-- `UpdateConversationLastMessage`: update the conversation's last-message
snapshot. -/
def UpdateConversationLastMessage (s : State) (conversationID : Nat)
    (conversationUUID lastMessage : String) (lastMessageAt : Nat) : State :=
  { s with conversations := s.conversations.map (updateLastMessageRow conversationID conversationUUID lastMessage lastMessageAt) }

/-- `InsertMessage`: force private messages to status Sent, default the
content type, derive plain text, persist the row, register the participant,
update the conversation last-message snapshot (redacted for CSAT messages),
broadcast, and trigger the message-created webhook. Returns the persisted
row. -/
def InsertMessage (now : Nat) (s : State) (message : Message) : State × Message :=
  let message := if message.isPrivate then { message with status := .sent } else message
  let message := if message.contentType = "" then { message with contentType := ContentTypeText } else message
  let message := { message with textContent := html2Text message.content }
  let message := { message with
    id := s.nextMessageID,
    uuid := "msg-" ++ toString s.nextMessageID }
  let s := { s with
    messages := s.messages ++ [message],
    nextMessageID := s.nextMessageID + 1 }
  let s := addConversationParticipant s message.senderID message.conversationUUID
  let lastMessage := if message.hasCSAT then "Please rate your experience with us" else message.textContent
  let s := UpdateConversationLastMessage s message.conversationID message.conversationUUID lastMessage now
  let s := { s with broadcasts := s.broadcasts ++ [(message.conversationUUID, "new_message")] }
  let s := { s with webhookEvents := s.webhookEvents ++ [.messageCreated message.id] }
  (s, message)

/-- Activity types (`models.Activity...`). -/
inductive ActivityType
  | assignedUserChange
  | assignedTeamChange
  | selfAssign
  | priorityChange
  | statusChange
  | tagAdded
  | tagRemoved
  | slaSet
deriving Repr, DecidableEq

/-- `getMessageActivityContent`. -/
def getMessageActivityContent (activityType : ActivityType) (newValue actorName : String) : String :=
  match activityType with
  | .assignedUserChange => "Assigned to " ++ newValue ++ " by " ++ actorName
  | .assignedTeamChange => "Assigned to " ++ newValue ++ " team by " ++ actorName
  | .selfAssign => actorName ++ " self-assigned this conversation"
  | .priorityChange => actorName ++ " set priority to " ++ newValue
  | .statusChange => actorName ++ " marked the conversation as " ++ newValue
  | .tagAdded => actorName ++ " added tag " ++ newValue
  | .tagRemoved => actorName ++ " removed tag " ++ newValue
  | .slaSet => actorName ++ " set " ++ newValue ++ " SLA policy"

/-- `InsertConversationActivity`: insert a private activity message in
status Sent. -/
def InsertConversationActivity (now : Nat) (s : State) (activityType : ActivityType)
    (conversationUUID newValue : String) (actor : Agent) : State :=
  let content := getMessageActivityContent activityType newValue (fullName actor)
  let message : Message := {
    mtype := .activity,
    status := .sent,
    content := content,
    contentType := ContentTypeText,
    conversationUUID := conversationUUID,
    isPrivate := true,
    senderID := actor.id,
    senderType := .agent }
  (InsertMessage now s message).1

/-- `RecordStatusChange`. -/
def RecordStatusChange (now : Nat) (s : State) (status : ConvStatus)
    (conversationUUID : String) (actor : Agent) : State :=
  InsertConversationActivity now s .statusChange conversationUUID (statusName status) actor

/-- The row transformation of the `re-open-conversation` SQL exec. -/
def reopenRow (conversationUUID : String) (c : Conversation) : Conversation :=
  if c.uuid = conversationUUID then { c with status := ConvStatus.Open, snoozedUntil := none } else c

/-- `ReOpenConversation`: the SQL `re-open-conversation` is not under src/
and is modelled from the spec and the Go doc comment: set status Open on a
conversation that is snoozed, resolved or closed; when a row was affected,
broadcast and record the status-change activity. -/
def ReOpenConversation (now : Nat) (s : State) (conversationUUID : String) (actor : Agent) : State :=
  match GetConversation s.conversations 0 conversationUUID "" with
  | none => s
  | some conv =>
    if conv.status = ConvStatus.Snoozed ∨ conv.status = ConvStatus.Resolved ∨ conv.status = ConvStatus.Closed then
      let s := { s with conversations := s.conversations.map (reopenRow conversationUUID) }
      let s := { s with broadcasts := s.broadcasts ++ [(conversationUUID, "status")] }
      RecordStatusChange now s ConvStatus.Open conversationUUID actor
    else s

/-- The row transformation of the `update-conversation-waiting-since` SQL exec. -/
def waitingSinceRow (conversationUUID : String) (t : Option Nat) (c : Conversation) : Conversation :=
  if c.uuid = conversationUUID then { c with waitingSince := t } else c

/-- `UpdateConversationWaitingSince` (`at = none` clears the marker);
broadcasts when a row was affected. -/
def UpdateConversationWaitingSince (s : State) (conversationUUID : String) (t : Option Nat) : State :=
  match GetConversation s.conversations 0 conversationUUID "" with
  | none => s
  | some _ =>
    let s := { s with conversations := s.conversations.map (waitingSinceRow conversationUUID t) }
    { s with broadcasts := s.broadcasts ++ [(conversationUUID, "waiting_since")] }

/-- `DeleteConversation`. -/
def DeleteConversation (s : State) (uuid : String) : State :=
  { s with conversations := s.conversations.filter (fun c => c.uuid ≠ uuid) }

/-- `CreateConversation`: the SQL insert-conversation is not under src/ and is
modelled from the spec: a fresh row in status Open seeded with the contact,
inbox, subject, and last-message preview; id, uuid and reference number come
from the store's sequences. -/
def CreateConversation (s : State) (contactID _contactChannelID inboxID : Nat)
    (lastMessage : String) (lastMessageAt : Nat) (subject : String) : State × Nat × String :=
  let id := s.nextConversationID
  let uuid := "conv-" ++ toString id
  let contactEmail := ((s.contacts.find? (fun c => c.id = contactID)).map (fun c => c.email)).getD ""
  let conv : Conversation := {
    id := id,
    uuid := uuid,
    contactID := contactID,
    contactEmail := contactEmail,
    inboxID := inboxID,
    status := .Open,
    referenceNumber := toString (100 + id),
    subject := subject,
    lastMessage := lastMessage,
    lastMessageAt := lastMessageAt }
  ({ s with
      conversations := s.conversations ++ [conv],
      nextConversationID := id + 1 }, id, uuid)

/-- `findOrCreateConversation`: search by the in-reply-to and references
header chain; create a new conversation when nothing matches. Returns the
bound message and the "created new conversation" flag. -/
def findOrCreateConversation (now : Nat) (s : State) (msg : Message)
    (inboxID contactChannelID contactID : Nat) : State × Message × Bool :=
  let sourceIDs := msg.inReplyTo :: msg.references
  let conversationID := (messageExistsBySourceID s.messages sourceIDs).getD 0
  if conversationID = 0 then
    let lastMessage := html2Text msg.content
    let res := CreateConversation s contactID contactChannelID inboxID lastMessage now msg.subject
    (res.1, { msg with conversationID := res.2.1, conversationUUID := res.2.2 }, true)
  else
    let conversationUUID :=
      ((GetConversation s.conversations conversationID "" "").map (fun c => c.uuid)).getD ""
    (s, { msg with conversationID := conversationID, conversationUUID := conversationUUID }, false)

/-- `uploadMessageAttachments`: media-store interaction is abstracted by the
`uploadOK` oracle; with no attachments the call always succeeds, otherwise a
failing store yields `none` and a succeeding store registers the media. -/
def uploadMessageAttachments (uploadOK : Bool) (msg : Message) : Option Message :=
  if msg.attachments.isEmpty then some msg
  else if uploadOK then some { msg with media := msg.media ++ msg.attachments }
  else none

/-- Environment oracle for one ingestion run: outcome of the media-store
upload and of the SLA store's next-response event creation. -/
structure IngestEnv where
  uploadOK : Bool := true
  slaDeadline : Option Nat := none
deriving Repr, DecidableEq

/-- `CreateNextResponseSLAEvent` call and its surrounding logic: record the
event creation; when a deadline came back, broadcast the deadline and clear
the met-at marker. -/
def createNextResponseSLAEvent (env : IngestEnv) (s : State) (conv : Conversation) : State :=
  let s := { s with slaNextResponseEvents := s.slaNextResponseEvents ++ [conv.id] }
  match env.slaDeadline with
  | some _ =>
    { s with broadcasts := s.broadcasts ++
        [(conv.uuid, "next_response_deadline_at"), (conv.uuid, "next_response_met_at")] }
  | none => s

/-- The conversation-matcher block of `processIncomingMessage` (lines
711-764): plus-address hint, subject reference-number hint (both with the
contact-email spoof check), then header-chain match / conversation
creation. Returns the bound message and the "created new conversation"
flag. -/
def matchConversation (now : Nat) (s : State) (inc : IncomingMessage) (msg : Message) :
    State × Message × Bool :=
  let msg :=
    if inc.conversationUUIDFromReplyTo ≠ "" then
      let conversation := (GetConversation s.conversations 0 inc.conversationUUIDFromReplyTo "").getD {}
      if eqFold conversation.contactEmail inc.contact.email then
        { msg with conversationID := conversation.id, conversationUUID := conversation.uuid }
      else msg
    else msg
  let msg :=
    if msg.conversationID = 0 then
      let refNum := extractReferenceNumber msg.subject
      if refNum ≠ "" then
        let conversation := (GetConversation s.conversations 0 "" refNum).getD {}
        if conversation.contactEmail ≠ "" && eqFold conversation.contactEmail inc.contact.email then
          { msg with conversationID := conversation.id, conversationUUID := conversation.uuid }
        else msg
      else msg
    else msg
  if msg.conversationID = 0 then
    findOrCreateConversation now s msg inc.inboxID inc.contact.contactChannelID inc.contact.id
  else (s, msg, false)

/-- The post-insert fan-out of `processIncomingMessage` (lines 786-832): for
a new conversation trigger the created webhook and new-conversation rules;
otherwise reopen, set waiting-since, evaluate incoming-message rules, and
create the next-response SLA event when an SLA policy applies. -/
def ingestFanout (now : Nat) (env : IngestEnv) (s : State) (inserted : Message)
    (isNewConversation : Bool) : State × Option String :=
  if isNewConversation then
    match GetConversation s.conversations inserted.conversationID "" "" with
    | some conv =>
      let s := { s with webhookEvents := s.webhookEvents ++ [WebhookEvent.conversationCreated conv.id] }
      let s := { s with automationEvents := s.automationEvents ++ [AutomationEvent.newConversation conv.id] }
      (s, none)
    | none => (s, none)
  else
    let s :=
      match s.agents.find? (fun a => a.isSystem) with
      | some systemUser => ReOpenConversation now s inserted.conversationUUID systemUser
      | none => s
    let s := UpdateConversationWaitingSince s inserted.conversationUUID (some now)
    match GetConversation s.conversations inserted.conversationID "" "" with
    | none => (s, none)
    | some conv =>
      let s := { s with automationEvents := s.automationEvents ++
        [AutomationEvent.conversationUpdate conv.id AutomationKind.messageIncoming] }
      if conv.slaPolicyID = 0 then (s, none)
      else (createNextResponseSLAEvent env s conv, none)

/-- The persistence block of `processIncomingMessage` (lines 766-784):
attachment upload with compensating conversation delete on a brand-new
conversation, content sanitization, and the message insert, followed by the
fan-out. -/
def ingestPersist (now : Nat) (env : IngestEnv) (s : State) (msg : Message)
    (isNewConversation : Bool) : State × Option String :=
  match uploadMessageAttachments env.uploadOK msg with
  | none =>
    if isNewConversation ∧ msg.conversationUUID ≠ "" then
      (DeleteConversation s msg.conversationUUID, some "error uploading message attachments")
    else (s, some "error uploading message attachments")
  | some msg =>
    let msg := { msg with content := sanitizeEmailHTML msg.content }
    let ins := InsertMessage now s msg
    ingestFanout now env ins.1 ins.2 isNewConversation

/-- `processIncomingMessage`: contact upsert, source-id dedup, the
conversation matcher, and the persistence pipeline. `none` result is
success. -/
def processIncomingMessage (now : Nat) (env : IngestEnv) (s : State)
    (inc : IncomingMessage) : State × Option String :=
  let res := createContact s inc.contact
  let s := res.1
  let msg := { inc.message with senderID := res.2 }
  let dedupID := (messageExistsBySourceID s.messages [msg.sourceID.getD ""]).getD 0
  if dedupID > 0 then (s, none)
  else
    let found := matchConversation now s inc msg
    ingestPersist now env found.1 found.2.1 found.2.2

/-- The row transformation of the `update-message-status` SQL exec. -/
def messageStatusRow (messageUUID : String) (status : MessageStatus) (m : Message) : Message :=
  if m.uuid = messageUUID then { m with status := status } else m

/-- `UpdateMessageStatus`: update the row, broadcast the status to the
conversation's subscribers, and trigger the message-updated webhook. -/
def UpdateMessageStatus (s : State) (messageUUID : String) (status : MessageStatus) : State :=
  let s := { s with messages := s.messages.map (messageStatusRow messageUUID status) }
  let conversationUUID := getConversationUUIDFromMessageUUID s.messages messageUUID
  let s := { s with broadcasts := s.broadcasts ++ [(conversationUUID, "status")] }
  { s with webhookEvents := s.webhookEvents ++ [WebhookEvent.messageUpdated messageUUID status] }

/-- The source ids of a conversation's messages in descending (newest first)
order; the message table is kept in insertion order, oldest first. -/
def conversationSourceIDsDesc (msgs : List Message) (conversationID : Nat) : List String :=
  ((msgs.filter (fun m => m.conversationID = conversationID && m.sourceID.isSome)).reverse).map
    (fun m => m.sourceID.getD "")

/-- Modelled from the spec: the SQL behind `GetMessageSourceIDs` (queries.sql
is not under src/) fetches the most recent `limit` source ids for the
conversation in newest-first order. -/
def GetMessageSourceIDs (msgs : List Message) (conversationID limit : Nat) : List String :=
  (conversationSourceIDsDesc msgs conversationID).take limit

/-- Environment oracle for one outbound send: outcomes of the template
renderer, the media store, the settings store, the channel adapter, and the
SLA store. -/
structure SendEnv where
  renderOK : Bool := true
  attachOK : Bool := true
  blobs : List String := []
  srcIDsOK : Bool := true
  rootURL : Option String := none
  sendOK : Bool := true
  slaHasPendingEvent : Bool := false
deriving Repr, DecidableEq

/-- `RenderMessageInTemplate`: email-channel rendering requires the
conversation and the sender to resolve; the template collaborator's own
substitution is abstracted by `renderOK` (its output is external to the
core). A non-email channel is an error. -/
def RenderMessageInTemplate (env : SendEnv) (s : State) (channel : String)
    (message : Message) : Option Message :=
  if channel = ChannelEmail then
    match GetConversation s.conversations 0 message.conversationUUID "",
        s.agents.find? (fun a => a.id = message.senderID) with
    | some _, some _ => if env.renderOK then some message else none
    | _, _ => none
  else none

/-- `attachAttachmentsToMessage`: reconstitute attachment blobs from the
media store; the store interaction is abstracted by `attachOK` / `blobs`. -/
def attachAttachmentsToMessage (env : SendEnv) (message : Message) : Option Message :=
  if env.attachOK then some { message with attachments := env.blobs } else none

/-- The From-header computation of `sendOutgoingMessage`: "FirstName
LastName <inbox-email>" when the sender resolves to a named agent, else the
inbox's configured From address. -/
def setFromHeader (s : State) (inbox : Inbox) (message : Message) : Message :=
  match s.agents.find? (fun a => a.id = message.senderID) with
  | some sender =>
    if sender.firstName ≠ "" then
      match extractEmail inbox.fromAddress with
      | some inboxEmail =>
        { message with fromAddr := fullName sender ++ " <" ++ inboxEmail ++ ">" }
      | none => { message with fromAddr := inbox.fromAddress }
    else { message with fromAddr := inbox.fromAddress }
  | none => { message with fromAddr := inbox.fromAddress }

/-- The threading-header computation of `sendOutgoingMessage` (lines 178-193):
fetch the last 20 source ids newest-first (a fetch error is only logged and
leaves the list empty), reverse to oldest-first, strip the current message's
own id, and point In-Reply-To at the last remaining entry. -/
def computeThreadingHeaders (env : SendEnv) (s : State) (message : Message) : Message :=
  let refs := if env.srcIDsOK then GetMessageSourceIDs s.messages message.conversationID 20 else []
  let refs := refs.reverse
  let refs := removeItemByValue refs (message.sourceID.getD "")
  let message := { message with references := refs }
  if refs.length > 0 then { message with inReplyTo := refs.getLastD "" } else message

/-- Modelled from the spec: rewrite relative upload-path image references to
absolute URLs using the configured application root (the Go code uses a
regexp on src attributes). -/
def absolutizeUploads (rootURL content : String) : String :=
  content.replace ("src=\x22/uploads/") ("src=\x22" ++ rootURL.dropRightWhile (fun c => c = '/') ++ "/uploads/")

/-- The upload-URL rewriting step of `sendOutgoingMessage`: applied only when
the settings store returns a non-empty app root URL. -/
def absolutizeContent (env : SendEnv) (message : Message) : Message :=
  match env.rootURL with
  | some root => if root ≠ "" then { message with content := absolutizeUploads root message.content } else message
  | none => message

/-- The row transformation of the first-reply-at SQL exec: modelled from the
spec, "first-reply only if unset". -/
def firstReplyRow (conversationID t : Nat) (c : Conversation) : Conversation :=
  if c.id = conversationID && c.firstReplyAt = none then { c with firstReplyAt := some t } else c

/-- `UpdateConversationFirstReplyAt`: the SQL (not under src/) is modelled
from the spec ("first-reply only if unset"); broadcasts when a row changed. -/
def UpdateConversationFirstReplyAt (s : State) (conversationUUID : String)
    (conversationID t : Nat) : State :=
  match s.conversations.find? (fun c => c.id = conversationID && c.firstReplyAt = none) with
  | none => s
  | some _ =>
    let s := { s with conversations := s.conversations.map (firstReplyRow conversationID t) }
    { s with broadcasts := s.broadcasts ++ [(conversationUUID, "first_reply_at")] }

/-- The row transformation of the last-reply-at SQL exec. -/
def lastReplyRow (conversationID t : Nat) (c : Conversation) : Conversation :=
  if c.id = conversationID then { c with lastReplyAt := some t } else c

/-- `UpdateConversationLastReplyAt`; broadcasts when a row was affected. -/
def UpdateConversationLastReplyAt (s : State) (conversationUUID : String)
    (conversationID t : Nat) : State :=
  match s.conversations.find? (fun c => c.id = conversationID) with
  | none => s
  | some _ =>
    let s := { s with conversations := s.conversations.map (lastReplyRow conversationID t) }
    { s with broadcasts := s.broadcasts ++ [(conversationUUID, "last_reply_at")] }

/-- The post-send block of `sendOutgoingMessage` (lines 210-242): for human
(non-system) senders update first/last-reply timestamps, clear waiting-since,
mark the latest pending next-response SLA event as met (no such event is
tolerated as a non-error), and evaluate the outgoing-message automation
rules. -/
def postSendUpdates (now : Nat) (env : SendEnv) (s : State) (message : Message) : State :=
  match s.agents.find? (fun a => a.isSystem) with
  | none => s
  | some systemUser =>
    if message.senderID = systemUser.id then s
    else
      match GetConversation s.conversations message.conversationID "" "" with
      | none => s
      | some conversation =>
        let s :=
          if conversation.firstReplyAt = none then
            UpdateConversationFirstReplyAt s message.conversationUUID message.conversationID now
          else s
        let s := UpdateConversationLastReplyAt s message.conversationUUID message.conversationID now
        let s := UpdateConversationWaitingSince s message.conversationUUID none
        let s :=
          if env.slaHasPendingEvent then
            { s with
                slaMetEvents := s.slaMetEvents ++ [conversation.appliedSLAID],
                broadcasts := s.broadcasts ++ [(message.conversationUUID, "next_response_met_at")] }
          else s
        { s with automationEvents := s.automationEvents ++
            [AutomationEvent.conversationUpdate conversation.id AutomationKind.messageOutgoing] }

/-- The body of `sendOutgoingMessage` before its deferred in-flight-tracker
cleanup: resolve the inbox, render, attach, compute From and threading
headers, absolutize upload URLs, send through the adapter, and on success
mark Sent and run the post-send updates. Failures of the terminal steps mark
the message Failed and stop. -/
def sendOutgoingMessageCore (now : Nat) (env : SendEnv) (s : State) (message : Message) : State :=
  match s.inboxes.find? (fun ib => ib.id = message.inboxID) with
  | none => UpdateMessageStatus s message.uuid .failed
  | some inbox =>
    match RenderMessageInTemplate env s inbox.channel message with
    | none => UpdateMessageStatus s message.uuid .failed
    | some message =>
      match attachAttachmentsToMessage env message with
      | none => UpdateMessageStatus s message.uuid .failed
      | some message =>
        let message := setFromHeader s inbox message
        let message := computeThreadingHeaders env s message
        let message := absolutizeContent env message
        if env.sendOK then
          let s := { s with sentMessages := s.sentMessages ++ [message] }
          let s := UpdateMessageStatus s message.uuid .sent
          postSendUpdates now env s message
        else UpdateMessageStatus s message.uuid .failed

/-- `sendOutgoingMessage`: the core pipeline plus the deferred removal of the
message id from the in-flight tracker, which runs on every exit path. -/
def sendOutgoingMessage (now : Nat) (env : SendEnv) (s : State) (message : Message) : State :=
  let s := sendOutgoingMessageCore now env s message
  { s with outgoingProcessing := s.outgoingProcessing.filter (fun x => x ≠ message.id) }

/-- Modelled from the spec: `time.ParseDuration` on the snooze duration;
digit strings parse, anything else is a parse error. -/
def parseDuration (d : String) : Option Nat :=
  d.toNat?

/-- The SQL behind `UpdateConversationStatus.Exec` is not under src/ and is
modelled from the spec: set the status and snooze-until, and stamp
resolved-at only when entering Resolved with resolved-at still unset. -/
def statusUpdateRow (now : Nat) (uuid : String) (status : ConvStatus)
    (snoozeUntil : Option Nat) (c : Conversation) : Conversation :=
  if c.uuid = uuid then
    { c with
        status := status,
        snoozedUntil := snoozeUntil,
        resolvedAt :=
          if status = ConvStatus.Resolved ∧ c.resolvedAt = none then some now else c.resolvedAt }
  else c

def execUpdateConversationStatus (now : Nat) (s : State) (uuid : String)
    (status : ConvStatus) (snoozeUntil : Option Nat) : State :=
  { s with conversations := s.conversations.map (statusUpdateRow now uuid status snoozeUntil) }

/-- `UpdateConversationStatus`: resolve the status (by id through the status
store when given), validate the snooze duration, early-return when the
status is unchanged and not a snooze refresh, then update, trigger the
webhook, record the activity, broadcast, evaluate automation rules, and
broadcast resolved-at on a transition into Resolved. `statuses` plays the
status store; `none` result is success. -/
def UpdateConversationStatus (now : Nat) (s : State) (uuid : String) (statusID : Nat)
    (status0 : Option ConvStatus) (snoozeDur : String) (actor : Agent) : State × Option String :=
  let statusRes : Option ConvStatus :=
    if statusID > 0 then (s.statuses.find? (fun p => p.1 = statusID)).map (fun p => p.2)
    else status0
  match statusRes with
  | none => (s, some "input error")
  | some status =>
    if status = ConvStatus.Snoozed ∧ snoozeDur = "" then (s, some "invalid snooze duration")
    else
      let parsed := if status = ConvStatus.Snoozed then parseDuration snoozeDur else none
      if status = ConvStatus.Snoozed ∧ parsed = none then (s, some "invalid snooze duration")
      else
        let snoozeUntil := parsed.map (fun d => now + d)
        match GetConversation s.conversations 0 uuid "" with
        | none => (s, some "error fetching conversation")
        | some conversationBeforeChange =>
          let oldStatus := conversationBeforeChange.status
          if oldStatus = status ∧ status ≠ ConvStatus.Snoozed then (s, none)
          else
            let s := execUpdateConversationStatus now s uuid status snoozeUntil
            let conversation := GetConversation s.conversations 0 uuid ""
            let s := { s with webhookEvents := s.webhookEvents ++
              [WebhookEvent.conversationStatusChanged uuid oldStatus status] }
            let s := RecordStatusChange now s status uuid actor
            let s := { s with broadcasts := s.broadcasts ++ [(uuid, "status")] }
            let s :=
              match conversation with
              | some c =>
                if c.id ≠ 0 then
                  { s with automationEvents := s.automationEvents ++
                    [AutomationEvent.conversationUpdate c.id AutomationKind.statusChange] }
                else s
              | none => s
            let s :=
              if oldStatus ≠ ConvStatus.Resolved ∧ status = ConvStatus.Resolved then
                { s with broadcasts := s.broadcasts ++ [(uuid, "resolved_at")] }
              else s
            (s, none)

/-- The bounded ingestion queue (`m.incomingMessageQueue`, a Go buffered
channel of fixed capacity) together with the `closed` flag guarded by
`closedMu`. -/
structure IncomingQueue where
  capacity : Nat
  items : List IncomingMessage := []
  closed : Bool := false
deriving Repr, DecidableEq

/-- `EnqueueIncoming`: a closed queue rejects with a "queue is closed" error;
otherwise a non-blocking channel send succeeds exactly when the buffer has
free capacity, and a full buffer rejects immediately with a "queue is full"
error. -/
def EnqueueIncoming (q : IncomingQueue) (message : IncomingMessage) :
    IncomingQueue × Option String :=
  if q.closed then (q, some "incoming message queue is closed")
  else if q.items.length < q.capacity then
    ({ q with items := q.items ++ [message] }, none)
  else (q, some "incoming message queue is full")

/-- The state of the periodic dispatch scanner (`Run`), the in-flight tracker
(`outgoingProcessingMessages`), the outgoing queue, and the dispatch workers:
`db` is the persisted message-status table, `inflight` the messages a worker
has taken off the queue and not yet finished. -/
structure DispatchState where
  db : List (Nat × MessageStatus)
  tracker : List Nat
  queue : List Nat
  inflight : List Nat
deriving Repr, DecidableEq

/-- Modelled from the spec: the SQL behind `GetOutgoingPendingMessages`
(queries.sql is not under src/) selects the ids of messages in Pending
status, excluding the ids passed in from the in-flight tracker. -/
def GetOutgoingPendingMessages (db : List (Nat × MessageStatus)) (excluded : List Nat) :
    List Nat :=
  (db.filter (fun p => p.2 = MessageStatus.pending && !excluded.contains p.1)).map
    (fun p => p.1)

/-- One tick of the scanner loop in `Run`: fetch the pending messages not in
the tracker, record each in the tracker, and push each to the outgoing
queue. -/
def scanTick (d : DispatchState) : DispatchState :=
  let pending := GetOutgoingPendingMessages d.db d.tracker
  { d with tracker := d.tracker ++ pending, queue := d.queue ++ pending }

/-- A dispatch worker (`MessageSenderWorker`) taking the next message off the
outgoing queue; the tracker entry stays until the send pipeline finishes. -/
def startDispatch (d : DispatchState) : DispatchState :=
  match d.queue with
  | [] => d
  | mid :: rest => { d with queue := rest, inflight := d.inflight ++ [mid] }

/-- The outbound send pipeline finishing for one message (success or
failure): the status becomes Sent or Failed, and the deferred
`outgoingProcessingMessages.Delete` removes the tracker entry. -/
def finishDispatch (d : DispatchState) (mid : Nat) (ok : Bool) : DispatchState :=
  if mid ∈ d.inflight then
    { d with
        inflight := d.inflight.erase mid,
        db := d.db.map (fun p => if p.1 = mid then (p.1, if ok then MessageStatus.sent else MessageStatus.failed) else p),
        tracker := d.tracker.filter (fun x => x ≠ mid) }
  else d

/-- The dispatch-safety invariant: a message id occurs at most once across
the queue and the in-flight set, every such id is recorded in the tracker,
and the status table has one row per id. -/
def DispatchInv (d : DispatchState) : Prop :=
  (d.queue ++ d.inflight).Nodup ∧
  (∀ mid ∈ d.queue ++ d.inflight, mid ∈ d.tracker) ∧
  (d.db.map (fun p => p.1)).Nodup

instance (d : DispatchState) : Decidable (DispatchInv d) := by
  unfold DispatchInv
  infer_instance

/-! ## Frame lemmas -/

theorem createContact_messages (s : State) (c : Contact) :
    (createContact s c).1.messages = s.messages := by
  unfold createContact
  cases s.contacts.find? (fun e => e.email = c.email) <;> rfl

theorem createContact_conversations (s : State) (c : Contact) :
    (createContact s c).1.conversations = s.conversations := by
  unfold createContact
  cases s.contacts.find? (fun e => e.email = c.email) <;> rfl

theorem createContact_upserts (s : State) (c : Contact) :
    (createContact s c).1.contactUpserts = s.contactUpserts ++ [c] := by
  unfold createContact
  cases s.contacts.find? (fun e => e.email = c.email) <;> rfl

theorem messageExistsBySourceID_pos (msgs : List Message) (sid : String)
    (hexist : ∃ m ∈ msgs, m.sourceID = some sid)
    (hwf : ∀ m ∈ msgs, 0 < m.conversationID) :
    0 < (messageExistsBySourceID msgs [sid]).getD 0 := by
  obtain ⟨m, hm, hsid⟩ := hexist
  unfold messageExistsBySourceID
  simp only [List.cons_ne_self sid, if_neg, reduceCtorEq]
  cases hf : msgs.find? (fun m => match m.sourceID with
    | some s => [sid].contains s
    | none => false) with
  | none =>
    exfalso
    have := List.find?_eq_none.mp hf m hm
    simp [hsid] at this
  | some y =>
    have hy := List.mem_of_find?_eq_some hf
    simpa using hwf y hy

theorem messageExistsBySourceID_eq_none (msgs : List Message) (ids : List String)
    (hfresh : ∀ m ∈ msgs, ∀ t, m.sourceID = some t → t ∉ ids) :
    messageExistsBySourceID msgs ids = none := by
  unfold messageExistsBySourceID
  by_cases hids : ids = []
  · simp [hids]
  · simp only [hids, if_false]
    rcases hf : msgs.find? (fun m => match m.sourceID with
      | some sid => ids.contains sid
      | none => false) with _ | y
    · rw [hf]
      rfl
    · exfalso
      have hy := List.mem_of_find?_eq_some hf
      have hp := List.find?_some hf
      cases hsid : y.sourceID with
      | none => rw [hsid] at hp; simp at hp
      | some t =>
        rw [hsid] at hp
        simp at hp
        exact hfresh y hy t hsid hp

/-! ## Frame lemmas for the ingestion pipeline -/

theorem updateLastMessageRow_id (cid : Nat) (cuuid lm : String) (t : Nat) (c : Conversation) :
    (updateLastMessageRow cid cuuid lm t c).id = c.id := by
  unfold updateLastMessageRow; split <;> rfl

theorem updateLastMessageRow_uuid (cid : Nat) (cuuid lm : String) (t : Nat) (c : Conversation) :
    (updateLastMessageRow cid cuuid lm t c).uuid = c.uuid := by
  unfold updateLastMessageRow; split <;> rfl

theorem updateLastMessageRow_refNum (cid : Nat) (cuuid lm : String) (t : Nat) (c : Conversation) :
    (updateLastMessageRow cid cuuid lm t c).referenceNumber = c.referenceNumber := by
  unfold updateLastMessageRow; split <;> rfl

theorem updateLastMessageRow_status (cid : Nat) (cuuid lm : String) (t : Nat) (c : Conversation) :
    (updateLastMessageRow cid cuuid lm t c).status = c.status := by
  unfold updateLastMessageRow; split <;> rfl

theorem updateLastMessageRow_slaPolicyID (cid : Nat) (cuuid lm : String) (t : Nat) (c : Conversation) :
    (updateLastMessageRow cid cuuid lm t c).slaPolicyID = c.slaPolicyID := by
  unfold updateLastMessageRow; split <;> rfl

theorem GetConversation_map_pres (convs : List Conversation) (f : Conversation → Conversation)
    (hid : ∀ c, (f c).id = c.id) (huuid : ∀ c, (f c).uuid = c.uuid)
    (href : ∀ c, (f c).referenceNumber = c.referenceNumber)
    (id : Nat) (uuid refNum : String) :
    GetConversation (convs.map f) id uuid refNum = (GetConversation convs id uuid refNum).map f := by
  unfold GetConversation
  rw [List.find?_map f convs]
  have hfun : ((fun c : Conversation =>
      (id ≠ 0 && c.id = id) || (uuid ≠ "" && c.uuid = uuid) ||
        (refNum ≠ "" && c.referenceNumber = refNum)) ∘ f) =
      (fun c : Conversation =>
      (id ≠ 0 && c.id = id) || (uuid ≠ "" && c.uuid = uuid) ||
        (refNum ≠ "" && c.referenceNumber = refNum)) := by
    funext c
    simp [Function.comp, hid, huuid, href]
  rw [hfun]

theorem GetConversation_uuid_eq (convs : List Conversation) (uuid : String) (c : Conversation)
    (h : GetConversation convs 0 uuid "" = some c) : c.uuid = uuid := by
  unfold GetConversation at h
  have hp := List.find?_some h
  simp at hp
  exact hp.2

theorem ReOpenConversation_noop (now : Nat) (s : State) (uuid : String) (actor : Agent)
    (h : ∀ c, GetConversation s.conversations 0 uuid "" = some c → c.status = ConvStatus.Open) :
    ReOpenConversation now s uuid actor = s := by
  unfold ReOpenConversation
  cases hG : GetConversation s.conversations 0 uuid "" with
  | none => rfl
  | some conv =>
    have hst := h conv hG
    simp [hst]

theorem UpdateConversationWaitingSince_messages (s : State) (uuid : String) (t : Option Nat) :
    (UpdateConversationWaitingSince s uuid t).messages = s.messages := by
  unfold UpdateConversationWaitingSince
  cases GetConversation s.conversations 0 uuid "" <;> rfl

theorem UpdateConversationWaitingSince_convLength (s : State) (uuid : String) (t : Option Nat) :
    (UpdateConversationWaitingSince s uuid t).conversations.length = s.conversations.length := by
  unfold UpdateConversationWaitingSince
  cases GetConversation s.conversations 0 uuid "" <;> simp

theorem createNextResponseSLAEvent_messages (env : IngestEnv) (s : State) (conv : Conversation) :
    (createNextResponseSLAEvent env s conv).messages = s.messages := by
  unfold createNextResponseSLAEvent
  cases env.slaDeadline <;> rfl

theorem createNextResponseSLAEvent_conversations (env : IngestEnv) (s : State) (conv : Conversation) :
    (createNextResponseSLAEvent env s conv).conversations = s.conversations := by
  unfold createNextResponseSLAEvent
  cases env.slaDeadline <;> rfl

theorem addConversationParticipant_messages (s : State) (u : Nat) (cu : String) :
    (addConversationParticipant s u cu).messages = s.messages := by
  unfold addConversationParticipant; split <;> rfl

theorem addConversationParticipant_conversations (s : State) (u : Nat) (cu : String) :
    (addConversationParticipant s u cu).conversations = s.conversations := by
  unfold addConversationParticipant; split <;> rfl

theorem UpdateConversationLastMessage_messages (s : State) (cid : Nat) (cuuid lm : String) (t : Nat) :
    (UpdateConversationLastMessage s cid cuuid lm t).messages = s.messages := rfl

theorem InsertMessage_messages (now : Nat) (s : State) (message : Message) :
    (InsertMessage now s message).1.messages = s.messages ++ [(InsertMessage now s message).2] := by
  simp only [InsertMessage, UpdateConversationLastMessage_messages, addConversationParticipant_messages]

theorem InsertMessage_snd_convID (now : Nat) (s : State) (message : Message) :
    (InsertMessage now s message).2.conversationID = message.conversationID := by
  simp only [InsertMessage]
  split <;> split <;> rfl

theorem InsertMessage_snd_convUUID (now : Nat) (s : State) (message : Message) :
    (InsertMessage now s message).2.conversationUUID = message.conversationUUID := by
  simp only [InsertMessage]
  split <;> split <;> rfl

theorem InsertMessage_conversations (now : Nat) (s : State) (message : Message) :
    ∃ L, (InsertMessage now s message).1.conversations =
      s.conversations.map (updateLastMessageRow ((InsertMessage now s message).2.conversationID)
        ((InsertMessage now s message).2.conversationUUID) L now) := by
  refine ⟨?_, ?_⟩
  case _ =>
    exact if (InsertMessage now s message).2.hasCSAT then "Please rate your experience with us"
      else (InsertMessage now s message).2.textContent
  case _ =>
    simp only [InsertMessage, addConversationParticipant_conversations, UpdateConversationLastMessage]

theorem ingestFanout_nonnew (now : Nat) (env : IngestEnv) (s : State) (m : Message)
    (hopen : ∀ c, GetConversation s.conversations 0 m.conversationUUID "" = some c →
      c.status = ConvStatus.Open) :
    (ingestFanout now env s m false).1.messages = s.messages ∧
    (ingestFanout now env s m false).1.conversations.length = s.conversations.length ∧
    (ingestFanout now env s m false).2 = none := by
  unfold ingestFanout
  have hre : (match s.agents.find? (fun a => a.isSystem) with
      | some systemUser => ReOpenConversation now s m.conversationUUID systemUser
      | none => s) = s := by
    cases s.agents.find? (fun a => a.isSystem) with
    | none => rfl
    | some sys => exact ReOpenConversation_noop now s m.conversationUUID sys hopen
  simp only [Bool.false_eq_true, if_false, hre]
  cases hG : GetConversation (UpdateConversationWaitingSince s m.conversationUUID (some now)).conversations m.conversationID "" "" with
  | none =>
    simp [UpdateConversationWaitingSince_messages, UpdateConversationWaitingSince_convLength]
  | some conv =>
    by_cases hsla : conv.slaPolicyID = 0
    · simp [hsla, UpdateConversationWaitingSince_messages, UpdateConversationWaitingSince_convLength]
    · simp [hsla, createNextResponseSLAEvent_messages, createNextResponseSLAEvent_conversations,
        UpdateConversationWaitingSince_messages, UpdateConversationWaitingSince_convLength]

theorem matchConversation_plusAddress (now : Nat) (s : State) (inc : IncomingMessage)
    (msg : Message) (conv : Conversation)
    (hu : inc.conversationUUIDFromReplyTo ≠ "")
    (hconv : GetConversation s.conversations 0 inc.conversationUUIDFromReplyTo "" = some conv)
    (hmatch : eqFold conv.contactEmail inc.contact.email = true)
    (hid : conv.id ≠ 0) :
    matchConversation now s inc msg =
      (s, { msg with conversationID := conv.id, conversationUUID := conv.uuid }, false) := by
  unfold matchConversation
  simp [hu, hconv, hmatch, hid]

theorem matchConversation_mismatch_creates (now : Nat) (s : State) (inc : IncomingMessage)
    (msg : Message) (conv : Conversation)
    (hu : inc.conversationUUIDFromReplyTo ≠ "")
    (hconv : GetConversation s.conversations 0 inc.conversationUUIDFromReplyTo "" = some conv)
    (hmismatch : eqFold conv.contactEmail inc.contact.email = false)
    (hcid : msg.conversationID = 0)
    (hsub : extractReferenceNumber msg.subject = "")
    (hchain : messageExistsBySourceID s.messages (msg.inReplyTo :: msg.references) = none) :
    matchConversation now s inc msg =
      ((CreateConversation s inc.contact.id inc.contact.contactChannelID inc.inboxID
          (html2Text msg.content) now msg.subject).1,
        { msg with conversationID := s.nextConversationID, conversationUUID := "conv-" ++ toString s.nextConversationID }, true) := by
  unfold matchConversation findOrCreateConversation
  simp [hu, hconv, hmismatch, hcid, hsub, hchain, CreateConversation]

theorem ingestPersist_noattach (now : Nat) (env : IngestEnv) (s : State) (msg : Message)
    (isNew : Bool) (hatt : msg.attachments = []) :
    ingestPersist now env s msg isNew =
      ingestFanout now env
        (InsertMessage now s { msg with content := sanitizeEmailHTML msg.content }).1
        (InsertMessage now s { msg with content := sanitizeEmailHTML msg.content }).2 isNew := by
  unfold ingestPersist uploadMessageAttachments
  simp [hatt]

theorem ingestPersist_uploadfail (now : Nat) (env : IngestEnv) (s : State) (msg : Message)
    (isNew : Bool) (hatt : msg.attachments ≠ []) (hup : env.uploadOK = false) :
    ingestPersist now env s msg isNew =
      if isNew ∧ msg.conversationUUID ≠ "" then
        (DeleteConversation s msg.conversationUUID, some "error uploading message attachments")
      else (s, some "error uploading message attachments") := by
  unfold ingestPersist uploadMessageAttachments
  simp [hatt, hup]

theorem ingestFanout_new_frame (now : Nat) (env : IngestEnv) (s : State) (m : Message) :
    (ingestFanout now env s m true).1.messages = s.messages ∧
    (ingestFanout now env s m true).1.conversations = s.conversations ∧
    (ingestFanout now env s m true).2 = none := by
  unfold ingestFanout
  cases GetConversation s.conversations m.conversationID "" "" <;> simp

theorem createContact_nextConversationID (s : State) (c : Contact) :
    (createContact s c).1.nextConversationID = s.nextConversationID := by
  unfold createContact
  cases s.contacts.find? (fun e => e.email = c.email) <;> rfl

theorem matchConversation_nohint_creates (now : Nat) (s : State) (inc : IncomingMessage)
    (msg : Message)
    (hu : inc.conversationUUIDFromReplyTo = "")
    (hcid : msg.conversationID = 0)
    (hsub : extractReferenceNumber msg.subject = "")
    (hchain : messageExistsBySourceID s.messages (msg.inReplyTo :: msg.references) = none) :
    matchConversation now s inc msg =
      ((CreateConversation s inc.contact.id inc.contact.contactChannelID inc.inboxID
          (html2Text msg.content) now msg.subject).1,
        { msg with conversationID := s.nextConversationID, conversationUUID := "conv-" ++ toString s.nextConversationID }, true) := by
  unfold matchConversation findOrCreateConversation
  simp [hu, hcid, hsub, hchain, CreateConversation]

theorem filter_append_ne (convs : List Conversation) (nc : Conversation) (u : String)
    (hfresh : ∀ c ∈ convs, c.uuid ≠ u) (hnc : nc.uuid = u) :
    (convs ++ [nc]).filter (fun c => c.uuid ≠ u) = convs := by
  rw [List.filter_append]
  have h1 : [nc].filter (fun c => decide (c.uuid ≠ u)) = [] := by simp [hnc]
  have h2 : convs.filter (fun c => decide (c.uuid ≠ u)) = convs := by
    apply List.filter_eq_self.mpr
    intro c hc
    simpa using hfresh c hc
  simp only [h1, h2, List.append_nil]

theorem processIncomingMessage_nodedup (now : Nat) (env : IngestEnv) (s : State)
    (inc : IncomingMessage)
    (hded : messageExistsBySourceID s.messages [inc.message.sourceID.getD ""] = none) :
    processIncomingMessage now env s inc =
      ingestPersist now env
        (matchConversation now (createContact s inc.contact).1 inc
          { inc.message with senderID := (createContact s inc.contact).2 }).1
        (matchConversation now (createContact s inc.contact).1 inc
          { inc.message with senderID := (createContact s inc.contact).2 }).2.1
        (matchConversation now (createContact s inc.contact).1 inc
          { inc.message with senderID := (createContact s inc.contact).2 }).2.2 := by
  simp only [processIncomingMessage, createContact_messages, hded, Option.getD_none,
    gt_iff_lt, Nat.lt_irrefl, if_false]

/-- C1: for an inbound envelope whose message source id already belongs to
an existing message, `processIncomingMessage` returns success and leaves the
message and conversation tables untouched. -/
theorem dedup_noop_preserves_messages
    (now : Nat) (env : IngestEnv) (s : State) (inc : IncomingMessage) (sid : String)
    (hsid : inc.message.sourceID = some sid)
    (hexist : ∃ m ∈ s.messages, m.sourceID = some sid)
    (hwf : ∀ m ∈ s.messages, 0 < m.conversationID) :
    (processIncomingMessage now env s inc).2 = none ∧
    (processIncomingMessage now env s inc).1.messages = s.messages ∧
    (processIncomingMessage now env s inc).1.conversations = s.conversations := by
  have hpos : 0 < (messageExistsBySourceID s.messages [sid]).getD 0 :=
    messageExistsBySourceID_pos s.messages sid hexist hwf
  simp only [processIncomingMessage, createContact_messages, hsid, Option.getD_some, hpos, if_pos]
  simp [createContact_messages, createContact_conversations]

/-- Concrete fixture: a store holding one message with source id "s1". -/
def wMsgS1 : Message :=
  { id := 1, uuid := "m1", conversationID := 1, conversationUUID := "c1", sourceID := some "s1" }

/-- Concrete fixture: a state whose message table is `[wMsgS1]`. -/
def wStateS1 : State := { messages := [wMsgS1] }

/-- Concrete fixture: a redelivered envelope carrying source id "s1". -/
def wIncS1 : IncomingMessage :=
  { contact := { email := "a@x" }, message := { sourceID := some "s1" } }

theorem dedup_noop_preserves_messages_witness :
    wIncS1.message.sourceID = some "s1" ∧
    ((processIncomingMessage 10 {} wStateS1 wIncS1).2 = none ∧
      (processIncomingMessage 10 {} wStateS1 wIncS1).1.messages = wStateS1.messages ∧
      (processIncomingMessage 10 {} wStateS1 wIncS1).1.conversations = wStateS1.conversations) :=
  ⟨by decide,
    dedup_noop_preserves_messages 10 {} wStateS1 wIncS1 "s1" (by decide) (by decide) (by decide)⟩

/-- C10: the contact upsert runs before the source-id dedup check; even a
redelivered envelope mutates the contact store, while the message and
conversation tables stay untouched. -/
theorem contact_upsert_before_dedup
    (now : Nat) (env : IngestEnv) (s : State) (inc : IncomingMessage) (sid : String)
    (hsid : inc.message.sourceID = some sid)
    (hexist : ∃ m ∈ s.messages, m.sourceID = some sid)
    (hwf : ∀ m ∈ s.messages, 0 < m.conversationID) :
    (processIncomingMessage now env s inc).2 = none ∧
    (processIncomingMessage now env s inc).1.contactUpserts = s.contactUpserts ++ [inc.contact] ∧
    (processIncomingMessage now env s inc).1.messages = s.messages ∧
    (processIncomingMessage now env s inc).1.conversations = s.conversations := by
  have hpos : 0 < (messageExistsBySourceID s.messages [sid]).getD 0 :=
    messageExistsBySourceID_pos s.messages sid hexist hwf
  simp only [processIncomingMessage, createContact_messages, hsid, Option.getD_some, hpos, if_pos]
  simp [createContact_upserts, createContact_messages, createContact_conversations]

/-- Concrete fixture: `wStateS1` with the envelope's contact already known. -/
def wStateS1K : State :=
  { contacts := [{ id := 1, email := "a@x" }], messages := [wMsgS1], nextContactID := 2 }

theorem contact_upsert_before_dedup_witness :
    wIncS1.message.sourceID = some "s1" ∧
    ((processIncomingMessage 10 {} wStateS1K wIncS1).2 = none ∧
      (processIncomingMessage 10 {} wStateS1K wIncS1).1.contactUpserts =
        wStateS1K.contactUpserts ++ [wIncS1.contact] ∧
      (processIncomingMessage 10 {} wStateS1K wIncS1).1.messages = wStateS1K.messages ∧
      (processIncomingMessage 10 {} wStateS1K wIncS1).1.conversations = wStateS1K.conversations) :=
  ⟨by decide,
    contact_upsert_before_dedup 10 {} wStateS1K wIncS1 "s1" (by decide) (by decide) (by decide)⟩

theorem GetConversation_mem (convs : List Conversation) (id : Nat) (uuid refNum : String)
    (c : Conversation) (h : GetConversation convs id uuid refNum = some c) : c ∈ convs := by
  unfold GetConversation at h
  exact List.mem_of_find?_eq_some h

theorem CreateConversation_conversations (s : State) (a b c : Nat) (lm : String) (t : Nat)
    (subj : String) :
    (CreateConversation s a b c lm t subj).1.conversations.length = s.conversations.length + 1 := by
  simp [CreateConversation]

theorem CreateConversation_messages (s : State) (a b c : Nat) (lm : String) (t : Nat)
    (subj : String) :
    (CreateConversation s a b c lm t subj).1.messages = s.messages := rfl

theorem ingestPersist_matched (now : Nat) (env : IngestEnv) (s : State) (msg : Message)
    (hatt : msg.attachments = [])
    (hopen : ∀ c, GetConversation s.conversations 0 msg.conversationUUID "" = some c →
      c.status = ConvStatus.Open) :
    (ingestPersist now env s msg false).2 = none ∧
    (ingestPersist now env s msg false).1.conversations.length = s.conversations.length ∧
    ∃ m, (ingestPersist now env s msg false).1.messages = s.messages ++ [m] ∧
      m.conversationID = msg.conversationID ∧ m.conversationUUID = msg.conversationUUID := by
  rw [ingestPersist_noattach now env s msg false hatt]
  set msgC : Message := { msg with content := sanitizeEmailHTML msg.content } with hmC
  obtain ⟨L, hL⟩ := InsertMessage_conversations now s msgC
  have hik := InsertMessage_messages now s msgC
  have hicid := InsertMessage_snd_convID now s msgC
  have hiuuid := InsertMessage_snd_convUUID now s msgC
  have hopen2 : ∀ c, GetConversation (InsertMessage now s msgC).1.conversations 0
      ((InsertMessage now s msgC).2.conversationUUID) "" = some c → c.status = ConvStatus.Open := by
    intro c hc
    rw [hL, hiuuid] at hc
    rw [GetConversation_map_pres _ _ (fun x => updateLastMessageRow_id _ _ _ _ x)
      (fun x => updateLastMessageRow_uuid _ _ _ _ x)
      (fun x => updateLastMessageRow_refNum _ _ _ _ x)] at hc
    rw [Option.map_eq_some'] at hc
    obtain ⟨a, ha, hfa⟩ := hc
    have hmu : msgC.conversationUUID = msg.conversationUUID := rfl
    rw [hmu] at ha
    have hst := hopen a ha
    rw [← hfa, updateLastMessageRow_status]
    exact hst
  obtain ⟨hf1, hf2, hf3⟩ := ingestFanout_nonnew now env (InsertMessage now s msgC).1
    (InsertMessage now s msgC).2 hopen2
  refine ⟨hf3, ?_, (InsertMessage now s msgC).2, ?_, ?_, ?_⟩
  · rw [hf2, hL]
    simp
  · rw [hf1, hik]
  · rw [hicid]
  · rw [hiuuid]

theorem ingestPersist_created (now : Nat) (env : IngestEnv) (s : State) (msg : Message)
    (hatt : msg.attachments = []) :
    (ingestPersist now env s msg true).2 = none ∧
    (ingestPersist now env s msg true).1.conversations.length = s.conversations.length ∧
    ∃ m, (ingestPersist now env s msg true).1.messages = s.messages ++ [m] ∧
      m.conversationID = msg.conversationID ∧ m.conversationUUID = msg.conversationUUID := by
  rw [ingestPersist_noattach now env s msg true hatt]
  set msgC : Message := { msg with content := sanitizeEmailHTML msg.content } with hmC
  obtain ⟨L, hL⟩ := InsertMessage_conversations now s msgC
  have hik := InsertMessage_messages now s msgC
  have hicid := InsertMessage_snd_convID now s msgC
  have hiuuid := InsertMessage_snd_convUUID now s msgC
  obtain ⟨hf1, hf2, hf3⟩ := ingestFanout_new_frame now env (InsertMessage now s msgC).1
    (InsertMessage now s msgC).2
  refine ⟨hf3, ?_, (InsertMessage now s msgC).2, ?_, ?_, ?_⟩
  · rw [hf2, hL]
    simp
  · rw [hf1, hik]
  · rw [hicid]
  · rw [hiuuid]

theorem DeleteConversation_messages (s : State) (u : String) :
    (DeleteConversation s u).messages = s.messages := rfl

theorem convUUID_ne_empty (n : Nat) : ("conv-" ++ toString n) ≠ "" := by
  intro h
  have h2 := congrArg String.length h
  rw [String.length_append] at h2
  have h3 : ("conv-" : String).length = 5 := rfl
  have h4 : ("" : String).length = 0 := rfl
  rw [h3, h4] at h2
  omega

/-- C3 (amended): for an inbound envelope whose plus-address hint resolves
to a conversation, a case-insensitive match between the sender's email and
the conversation contact's email binds the message to that conversation; on
a mismatch the hint is ignored and matching falls through to the
subject-reference and header-chain matchers, a new conversation being
created only when those also fail. -/
theorem plus_address_binding
    (now : Nat) (env : IngestEnv) (s : State) (inc : IncomingMessage)
    (conv : Conversation) (sid : String)
    (hsid : inc.message.sourceID = some sid)
    (hfresh : ∀ m ∈ s.messages, m.sourceID ≠ some sid)
    (hu : inc.conversationUUIDFromReplyTo ≠ "")
    (hcid0 : inc.message.conversationID = 0)
    (hatt : inc.message.attachments = [])
    (hconv : GetConversation s.conversations 0 inc.conversationUUIDFromReplyTo "" = some conv)
    (hid : conv.id ≠ 0)
    (hopen : conv.status = ConvStatus.Open)
    (hwfid : ∀ c ∈ s.conversations, c.id ≠ s.nextConversationID) :
    (eqFold conv.contactEmail inc.contact.email = true →
      (processIncomingMessage now env s inc).2 = none ∧
      (processIncomingMessage now env s inc).1.conversations.length = s.conversations.length ∧
      ∃ m, (processIncomingMessage now env s inc).1.messages = s.messages ++ [m] ∧
        m.conversationID = conv.id ∧ m.conversationUUID = conv.uuid) ∧
    (eqFold conv.contactEmail inc.contact.email = false →
      extractReferenceNumber inc.message.subject = "" →
      messageExistsBySourceID s.messages (inc.message.inReplyTo :: inc.message.references) = none →
      (processIncomingMessage now env s inc).2 = none ∧
      (processIncomingMessage now env s inc).1.conversations.length = s.conversations.length + 1 ∧
      ∃ m, (processIncomingMessage now env s inc).1.messages = s.messages ++ [m] ∧
        m.conversationID = s.nextConversationID ∧ m.conversationID ≠ conv.id) := by
  have hded : messageExistsBySourceID s.messages [inc.message.sourceID.getD ""] = none := by
    apply messageExistsBySourceID_eq_none
    intro m hm t ht hmem
    rw [hsid] at hmem
    simp only [Option.getD_some, List.mem_singleton] at hmem
    subst hmem
    exact hfresh m hm ht
  have hstep := processIncomingMessage_nodedup now env s inc hded
  have hconv0 : GetConversation (createContact s inc.contact).1.conversations 0
      inc.conversationUUIDFromReplyTo "" = some conv := by
    rw [createContact_conversations]; exact hconv
  have huuid_eq : conv.uuid = inc.conversationUUIDFromReplyTo :=
    GetConversation_uuid_eq s.conversations inc.conversationUUIDFromReplyTo conv hconv
  constructor
  · -- match: bind to the hinted conversation
    intro hmatch
    have hmc := matchConversation_plusAddress now (createContact s inc.contact).1 inc
      { inc.message with senderID := (createContact s inc.contact).2 } conv hu hconv0 hmatch hid
    have hattB : ({ { inc.message with senderID := (createContact s inc.contact).2 } with
        conversationID := conv.id, conversationUUID := conv.uuid } : Message).attachments = [] := hatt
    have hopenY : ∀ c, GetConversation (createContact s inc.contact).1.conversations 0
        conv.uuid "" = some c → c.status = ConvStatus.Open := by
      intro c hc
      rw [createContact_conversations, huuid_eq, hconv] at hc
      cases hc
      exact hopen
    rw [hstep, hmc]
    obtain ⟨h1, h2, m, hm, hmid, hmuuid⟩ :=
      ingestPersist_matched now env (createContact s inc.contact).1 _ hattB hopenY
    refine ⟨h1, ?_, m, ?_, ?_, ?_⟩
    · rw [h2, createContact_conversations]
    · rw [hm, createContact_messages]
    · exact hmid
    · exact hmuuid
  · -- mismatch: hint ignored, fall through, new conversation
    intro hmismatch hsub hchain
    have hchain0 : messageExistsBySourceID (createContact s inc.contact).1.messages
        (({ inc.message with senderID := (createContact s inc.contact).2 } : Message).inReplyTo ::
          ({ inc.message with senderID := (createContact s inc.contact).2 } : Message).references) = none := by
      rw [createContact_messages]
      exact hchain
    have hcidB : ({ inc.message with senderID := (createContact s inc.contact).2 } : Message).conversationID = 0 := hcid0
    have hsubB : extractReferenceNumber
        ({ inc.message with senderID := (createContact s inc.contact).2 } : Message).subject = "" := hsub
    have hmc := matchConversation_mismatch_creates now (createContact s inc.contact).1 inc
      { inc.message with senderID := (createContact s inc.contact).2 } conv hu hconv0 hmismatch
      hcidB hsubB hchain0
    have hattB : ({ { inc.message with senderID := (createContact s inc.contact).2 } with
        conversationID := (createContact s inc.contact).1.nextConversationID,
        conversationUUID := "conv-" ++ toString (createContact s inc.contact).1.nextConversationID } : Message).attachments = [] := hatt
    rw [hstep, hmc]
    obtain ⟨h1, h2, m, hm, hmid, hmuuid⟩ :=
      ingestPersist_created now env
        (CreateConversation (createContact s inc.contact).1 inc.contact.id
          inc.contact.contactChannelID inc.inboxID
          (html2Text ({ inc.message with senderID := (createContact s inc.contact).2 } : Message).content)
          now ({ inc.message with senderID := (createContact s inc.contact).2 } : Message).subject).1
        _ hattB
    have hnext : (createContact s inc.contact).1.nextConversationID = s.nextConversationID :=
      createContact_nextConversationID s inc.contact
    have hconvmem : conv ∈ s.conversations :=
      GetConversation_mem s.conversations 0 inc.conversationUUIDFromReplyTo "" conv hconv
    have hne : conv.id ≠ s.nextConversationID := hwfid conv hconvmem
    refine ⟨h1, ?_, m, ?_, ?_, ?_⟩
    · rw [h2, CreateConversation_conversations, createContact_conversations]
    · rw [hm, CreateConversation_messages, createContact_messages]
    · rw [hmid]
      exact hnext
    · rw [hmid, hnext]
      exact fun hEq => hne hEq.symm

/-- Concrete fixture: one conversation "c1" owned by contact "a@x" and one
message with source id "s1". -/
def cx3State : State := { contacts := [{ id := 1, email := "a@x" }], conversations := [{ id := 1, uuid := "c1", contactID := 1, contactEmail := "a@x" }], messages := [{ id := 1, uuid := "m1", conversationID := 1, conversationUUID := "c1", sourceID := some "s1" }], nextContactID := 2, nextConversationID := 2, nextMessageID := 2 }

/-- Concrete fixture: an envelope from a different sender ("b@x") whose
plus-address hint names conversation "c1" and whose References contain the
existing source id "s1". -/
def cx3Inc : IncomingMessage := { contact := { email := "b@x" }, message := { sourceID := some "s2", references := ["s1"] }, conversationUUIDFromReplyTo := "c1" }

/-- C3 counterexample: the sender's email mismatches the hinted
conversation's contact email, yet no new conversation is created — the
message is bound to the existing conversation by the header-chain matcher
instead. -/
theorem plus_address_mismatch_counterexample :
    eqFold "a@x" "b@x" = false ∧
    (processIncomingMessage 10 {} cx3State cx3Inc).2 = none ∧
    (processIncomingMessage 10 {} cx3State cx3Inc).1.conversations.length = 1 ∧
    (processIncomingMessage 10 {} cx3State cx3Inc).1.messages.map (fun m => m.conversationID) = [1, 1] := by
  decide

/-- Concrete fixture: an envelope whose sender case-insensitively matches
the hinted conversation's contact. -/
def w3Inc : IncomingMessage := { contact := { email := "A@X" }, message := { sourceID := some "s3" }, conversationUUIDFromReplyTo := "c1" }

theorem plus_address_binding_witness :
    (processIncomingMessage 10 {} cx3State w3Inc).2 = none ∧
    (processIncomingMessage 10 {} cx3State w3Inc).1.conversations.length = cx3State.conversations.length ∧
    ∃ m, (processIncomingMessage 10 {} cx3State w3Inc).1.messages = cx3State.messages ++ [m] ∧
      m.conversationID = 1 ∧ m.conversationUUID = "c1" :=
  (plus_address_binding 10 {} cx3State w3Inc
    { id := 1, uuid := "c1", contactID := 1, contactEmail := "a@x" } "s3"
    (by decide) (by decide) (by decide) (by decide) (by decide) (by decide) (by decide)
    (by decide) (by decide)).1 (by decide)

theorem ingestPersist_created_uploadfail (now : Nat) (env : IngestEnv) (s : State)
    (msg : Message) (hatt : msg.attachments ≠ []) (hup : env.uploadOK = false)
    (hne : msg.conversationUUID ≠ "") :
    ingestPersist now env s msg true =
      (DeleteConversation s msg.conversationUUID, some "error uploading message attachments") := by
  rw [ingestPersist_uploadfail now env s msg true hatt hup]
  rw [if_pos ⟨rfl, hne⟩]

theorem ingestPersist_existing_uploadfail (now : Nat) (env : IngestEnv) (s : State)
    (msg : Message) (hatt : msg.attachments ≠ []) (hup : env.uploadOK = false) :
    ingestPersist now env s msg false = (s, some "error uploading message attachments") := by
  rw [ingestPersist_uploadfail now env s msg false hatt hup]
  rw [if_neg (fun h => by simpa using h.1)]

theorem DeleteConversation_CreateConversation (s : State) (a b c : Nat) (lm : String) (t : Nat)
    (subj : String) (u : String) (hu : u = "conv-" ++ toString s.nextConversationID)
    (hufresh : ∀ x ∈ s.conversations, x.uuid ≠ u) :
    (DeleteConversation (CreateConversation s a b c lm t subj).1 u).conversations =
      s.conversations := by
  subst hu
  exact filter_append_ne s.conversations
    { id := s.nextConversationID, uuid := "conv-" ++ toString s.nextConversationID,
      contactID := a,
      contactEmail := ((s.contacts.find? (fun x => x.id = a)).map (fun x => x.email)).getD "",
      inboxID := c, status := ConvStatus.Open,
      referenceNumber := toString (100 + s.nextConversationID), subject := subj,
      lastMessage := lm, lastMessageAt := t }
    ("conv-" ++ toString s.nextConversationID) hufresh rfl

/-- C6: attachment-upload failure on the first message of a brand-new
conversation triggers a compensating delete of that conversation and the
ingestion returns an error; on a message bound to a pre-existing
conversation, the conversation survives and only the message ingestion
fails. -/
theorem attachment_failure_rollback
    (now : Nat) (env : IngestEnv) (s : State) (inc : IncomingMessage) (sid : String)
    (hup : env.uploadOK = false)
    (hsid : inc.message.sourceID = some sid)
    (hfresh : ∀ m ∈ s.messages, m.sourceID ≠ some sid)
    (hatt : inc.message.attachments ≠ [])
    (hcid0 : inc.message.conversationID = 0) :
    (inc.conversationUUIDFromReplyTo = "" →
      extractReferenceNumber inc.message.subject = "" →
      messageExistsBySourceID s.messages (inc.message.inReplyTo :: inc.message.references) = none →
      (∀ c ∈ s.conversations, c.uuid ≠ "conv-" ++ toString s.nextConversationID) →
      (processIncomingMessage now env s inc).2 = some "error uploading message attachments" ∧
      (processIncomingMessage now env s inc).1.conversations = s.conversations ∧
      (processIncomingMessage now env s inc).1.messages = s.messages) ∧
    (∀ conv, inc.conversationUUIDFromReplyTo ≠ "" →
      GetConversation s.conversations 0 inc.conversationUUIDFromReplyTo "" = some conv →
      eqFold conv.contactEmail inc.contact.email = true → conv.id ≠ 0 →
      (processIncomingMessage now env s inc).2 = some "error uploading message attachments" ∧
      (processIncomingMessage now env s inc).1.conversations = s.conversations ∧
      (processIncomingMessage now env s inc).1.messages = s.messages) := by
  have hded : messageExistsBySourceID s.messages [inc.message.sourceID.getD ""] = none := by
    apply messageExistsBySourceID_eq_none
    intro m hm t ht hmem
    rw [hsid] at hmem
    simp only [Option.getD_some, List.mem_singleton] at hmem
    subst hmem
    exact hfresh m hm ht
  set CC := createContact s inc.contact with hCC
  set M : Message := { inc.message with senderID := CC.2 } with hM
  have hstep : processIncomingMessage now env s inc =
      ingestPersist now env (matchConversation now CC.1 inc M).1
        (matchConversation now CC.1 inc M).2.1 (matchConversation now CC.1 inc M).2.2 :=
    processIncomingMessage_nodedup now env s inc hded
  constructor
  · -- brand-new conversation: compensating delete
    intro hu hsub hchain hufresh
    have hchain0 : messageExistsBySourceID CC.1.messages (M.inReplyTo :: M.references) = none := by
      rw [hCC, createContact_messages]
      exact hchain
    have hcidB : M.conversationID = 0 := hcid0
    have hsubB : extractReferenceNumber M.subject = "" := hsub
    set MN : Message := { M with conversationID := CC.1.nextConversationID, conversationUUID := "conv-" ++ toString CC.1.nextConversationID } with hMN
    set S1 := (CreateConversation CC.1 inc.contact.id inc.contact.contactChannelID inc.inboxID
      (html2Text M.content) now M.subject).1 with hS1
    have hmc : matchConversation now CC.1 inc M = (S1, MN, true) :=
      matchConversation_nohint_creates now CC.1 inc M hu hcidB hsubB hchain0
    have hattN : MN.attachments ≠ [] := hatt
    have hne : MN.conversationUUID ≠ "" := convUUID_ne_empty CC.1.nextConversationID
    rw [hstep, hmc]
    rw [ingestPersist_created_uploadfail now env S1 MN hattN hup hne]
    have hufresh2 : ∀ x ∈ CC.1.conversations, x.uuid ≠ MN.conversationUUID := by
      intro x hx
      rw [hCC, createContact_conversations] at hx
      have hmnu : MN.conversationUUID = "conv-" ++ toString s.nextConversationID := by
        show ("conv-" ++ toString CC.1.nextConversationID) = _
        rw [hCC, createContact_nextConversationID]
      rw [hmnu]
      exact hufresh x hx
    have hD : (DeleteConversation S1 MN.conversationUUID).conversations = CC.1.conversations :=
      DeleteConversation_CreateConversation CC.1 inc.contact.id inc.contact.contactChannelID
        inc.inboxID (html2Text M.content) now M.subject MN.conversationUUID rfl hufresh2
    refine ⟨rfl, ?_, ?_⟩
    · show (DeleteConversation S1 MN.conversationUUID).conversations = s.conversations
      rw [hD, hCC, createContact_conversations]
    · show (DeleteConversation S1 MN.conversationUUID).messages = s.messages
      rw [DeleteConversation_messages]
      show (CreateConversation CC.1 inc.contact.id inc.contact.contactChannelID inc.inboxID
        (html2Text M.content) now M.subject).1.messages = s.messages
      rw [CreateConversation_messages, hCC, createContact_messages]
  · -- pre-existing conversation: no delete
    intro conv hu hconv hmatch hid
    have hconv0 : GetConversation CC.1.conversations 0 inc.conversationUUIDFromReplyTo "" =
        some conv := by
      rw [hCC, createContact_conversations]
      exact hconv
    set MB : Message := { M with conversationID := conv.id, conversationUUID := conv.uuid } with hMB
    have hmc : matchConversation now CC.1 inc M = (CC.1, MB, false) :=
      matchConversation_plusAddress now CC.1 inc M conv hu hconv0 hmatch hid
    have hattB : MB.attachments ≠ [] := hatt
    rw [hstep, hmc]
    rw [ingestPersist_existing_uploadfail now env CC.1 MB hattB hup]
    refine ⟨rfl, ?_, ?_⟩
    · show CC.1.conversations = s.conversations
      rw [hCC, createContact_conversations]
    · show CC.1.messages = s.messages
      rw [hCC, createContact_messages]

/-- Concrete fixture: an empty store. -/
def w6State : State := {}

/-- Concrete fixture: an envelope with one attachment and no matching hints. -/
def w6Inc : IncomingMessage := { contact := { email := "a@x" }, message := { sourceID := some "s1", attachments := ["a.png"] } }

theorem attachment_failure_rollback_witness :
    (processIncomingMessage 10 { uploadOK := false } w6State w6Inc).2 =
      some "error uploading message attachments" ∧
    (processIncomingMessage 10 { uploadOK := false } w6State w6Inc).1.conversations =
      w6State.conversations ∧
    (processIncomingMessage 10 { uploadOK := false } w6State w6Inc).1.messages =
      w6State.messages :=
  (attachment_failure_rollback 10 { uploadOK := false } w6State w6Inc "s1"
    (by decide) (by decide) (by decide) (by decide) (by decide)).1
    (by decide) (by decide) (by decide) (by decide)

/-! ## Frame lemmas for the outbound send pipeline -/

theorem UpdateMessageStatus_frame (s : State) (u : String) (st : MessageStatus) :
    (UpdateMessageStatus s u st).messages = s.messages.map (messageStatusRow u st) ∧
    (UpdateMessageStatus s u st).conversations = s.conversations ∧
    (UpdateMessageStatus s u st).sentMessages = s.sentMessages ∧
    (UpdateMessageStatus s u st).slaMetEvents = s.slaMetEvents ∧
    (UpdateMessageStatus s u st).automationEvents = s.automationEvents := by
  unfold UpdateMessageStatus
  exact ⟨rfl, rfl, rfl, rfl, rfl⟩

theorem setFromHeader_uuid (s : State) (i : Inbox) (m : Message) :
    (setFromHeader s i m).uuid = m.uuid := by
  unfold setFromHeader
  repeat' split
  all_goals rfl

theorem setFromHeader_sourceID (s : State) (i : Inbox) (m : Message) :
    (setFromHeader s i m).sourceID = m.sourceID := by
  unfold setFromHeader
  repeat' split
  all_goals rfl

theorem setFromHeader_conversationID (s : State) (i : Inbox) (m : Message) :
    (setFromHeader s i m).conversationID = m.conversationID := by
  unfold setFromHeader
  repeat' split
  all_goals rfl

theorem computeThreadingHeaders_uuid (env : SendEnv) (s : State) (m : Message) :
    (computeThreadingHeaders env s m).uuid = m.uuid := by
  simp only [computeThreadingHeaders]
  repeat' split
  all_goals rfl

theorem absolutizeContent_uuid (env : SendEnv) (m : Message) :
    (absolutizeContent env m).uuid = m.uuid := by
  unfold absolutizeContent
  repeat' split
  all_goals rfl

theorem absolutizeContent_references (env : SendEnv) (m : Message) :
    (absolutizeContent env m).references = m.references := by
  unfold absolutizeContent
  repeat' split
  all_goals rfl

theorem absolutizeContent_inReplyTo (env : SendEnv) (m : Message) :
    (absolutizeContent env m).inReplyTo = m.inReplyTo := by
  unfold absolutizeContent
  repeat' split
  all_goals rfl

theorem UpdateConversationFirstReplyAt_frame (s : State) (u : String) (cid t : Nat) :
    (UpdateConversationFirstReplyAt s u cid t).messages = s.messages ∧
    (UpdateConversationFirstReplyAt s u cid t).sentMessages = s.sentMessages ∧
    (UpdateConversationFirstReplyAt s u cid t).slaMetEvents = s.slaMetEvents ∧
    (UpdateConversationFirstReplyAt s u cid t).automationEvents = s.automationEvents := by
  unfold UpdateConversationFirstReplyAt
  split
  all_goals exact ⟨rfl, rfl, rfl, rfl⟩

theorem UpdateConversationLastReplyAt_frame (s : State) (u : String) (cid t : Nat) :
    (UpdateConversationLastReplyAt s u cid t).messages = s.messages ∧
    (UpdateConversationLastReplyAt s u cid t).sentMessages = s.sentMessages ∧
    (UpdateConversationLastReplyAt s u cid t).slaMetEvents = s.slaMetEvents ∧
    (UpdateConversationLastReplyAt s u cid t).automationEvents = s.automationEvents := by
  unfold UpdateConversationLastReplyAt
  split
  all_goals exact ⟨rfl, rfl, rfl, rfl⟩

theorem UpdateConversationWaitingSince_frame2 (s : State) (u : String) (t : Option Nat) :
    (UpdateConversationWaitingSince s u t).sentMessages = s.sentMessages ∧
    (UpdateConversationWaitingSince s u t).slaMetEvents = s.slaMetEvents ∧
    (UpdateConversationWaitingSince s u t).automationEvents = s.automationEvents := by
  unfold UpdateConversationWaitingSince
  split
  all_goals exact ⟨rfl, rfl, rfl⟩

theorem postSendUpdates_sentMessages (now : Nat) (env : SendEnv) (s : State) (m : Message) :
    (postSendUpdates now env s m).sentMessages = s.sentMessages := by
  unfold postSendUpdates
  repeat' split
  all_goals simp [UpdateConversationWaitingSince_frame2, UpdateConversationFirstReplyAt_frame,
    UpdateConversationLastReplyAt_frame]

theorem postSendUpdates_messages (now : Nat) (env : SendEnv) (s : State) (m : Message) :
    (postSendUpdates now env s m).messages = s.messages := by
  unfold postSendUpdates
  repeat' split
  all_goals simp [UpdateConversationWaitingSince_messages, UpdateConversationFirstReplyAt_frame,
    UpdateConversationLastReplyAt_frame]

theorem sendOutgoingMessage_observables (now : Nat) (env : SendEnv) (s : State) (message : Message) :
    (sendOutgoingMessage now env s message).messages = (sendOutgoingMessageCore now env s message).messages ∧
    (sendOutgoingMessage now env s message).conversations = (sendOutgoingMessageCore now env s message).conversations ∧
    (sendOutgoingMessage now env s message).sentMessages = (sendOutgoingMessageCore now env s message).sentMessages ∧
    (sendOutgoingMessage now env s message).slaMetEvents = (sendOutgoingMessageCore now env s message).slaMetEvents ∧
    (sendOutgoingMessage now env s message).automationEvents = (sendOutgoingMessageCore now env s message).automationEvents := by
  unfold sendOutgoingMessage
  exact ⟨rfl, rfl, rfl, rfl, rfl⟩

theorem sendCore_inbox_missing (now : Nat) (env : SendEnv) (s : State) (message : Message)
    (h : s.inboxes.find? (fun ib => ib.id = message.inboxID) = none) :
    sendOutgoingMessageCore now env s message = UpdateMessageStatus s message.uuid .failed := by
  unfold sendOutgoingMessageCore
  rw [h]

theorem sendCore_render_fail (now : Nat) (env : SendEnv) (s : State) (message : Message)
    (inbox : Inbox)
    (h : s.inboxes.find? (fun ib => ib.id = message.inboxID) = some inbox)
    (hr : RenderMessageInTemplate env s inbox.channel message = none) :
    sendOutgoingMessageCore now env s message = UpdateMessageStatus s message.uuid .failed := by
  unfold sendOutgoingMessageCore
  simp only [h]
  rw [hr]

theorem render_some (env : SendEnv) (s : State) (channel : String) (message : Message)
    (hchan : channel = ChannelEmail)
    (hc : (GetConversation s.conversations 0 message.conversationUUID "").isSome)
    (ha : (s.agents.find? (fun a => a.id = message.senderID)).isSome)
    (hr : env.renderOK = true) :
    RenderMessageInTemplate env s channel message = some message := by
  subst hchan
  obtain ⟨c, hc⟩ := Option.isSome_iff_exists.mp hc
  obtain ⟨a, ha⟩ := Option.isSome_iff_exists.mp ha
  unfold RenderMessageInTemplate
  simp [hc, ha, hr]

theorem sendCore_attach_fail (now : Nat) (env : SendEnv) (s : State) (message : Message)
    (inbox : Inbox)
    (h : s.inboxes.find? (fun ib => ib.id = message.inboxID) = some inbox)
    (hr : RenderMessageInTemplate env s inbox.channel message = some message)
    (ha : env.attachOK = false) :
    sendOutgoingMessageCore now env s message = UpdateMessageStatus s message.uuid .failed := by
  unfold sendOutgoingMessageCore attachAttachmentsToMessage
  simp only [h]
  rw [hr]
  simp [ha]

theorem sendCore_send_fail (now : Nat) (env : SendEnv) (s : State) (message : Message)
    (inbox : Inbox)
    (h : s.inboxes.find? (fun ib => ib.id = message.inboxID) = some inbox)
    (hr : RenderMessageInTemplate env s inbox.channel message = some message)
    (ha : env.attachOK = true)
    (hsend : env.sendOK = false) :
    sendOutgoingMessageCore now env s message = UpdateMessageStatus s message.uuid .failed := by
  unfold sendOutgoingMessageCore attachAttachmentsToMessage
  simp only [h]
  rw [hr]
  simp only [ha, if_pos]
  simp only [hsend, Bool.false_eq_true, if_false]
  have huuid : (absolutizeContent env (computeThreadingHeaders env s
      (setFromHeader s inbox { message with attachments := env.blobs }))).uuid = message.uuid := by
    rw [absolutizeContent_uuid, computeThreadingHeaders_uuid, setFromHeader_uuid]
  rw [huuid]

theorem sendCore_success (now : Nat) (env : SendEnv) (s : State) (message : Message)
    (inbox : Inbox)
    (h : s.inboxes.find? (fun ib => ib.id = message.inboxID) = some inbox)
    (hr : RenderMessageInTemplate env s inbox.channel message = some message)
    (ha : env.attachOK = true)
    (hsend : env.sendOK = true) :
    sendOutgoingMessageCore now env s message =
      postSendUpdates now env
        (UpdateMessageStatus
          { s with sentMessages := s.sentMessages ++ [absolutizeContent env (computeThreadingHeaders env s (setFromHeader s inbox { message with attachments := env.blobs }))] }
          (absolutizeContent env (computeThreadingHeaders env s (setFromHeader s inbox { message with attachments := env.blobs }))).uuid .sent)
        (absolutizeContent env (computeThreadingHeaders env s (setFromHeader s inbox { message with attachments := env.blobs }))) := by
  unfold sendOutgoingMessageCore attachAttachmentsToMessage
  simp only [h]
  rw [hr]
  simp only [ha, if_pos]
  simp only [hsend, if_true]

theorem computeThreadingHeaders_spec (env : SendEnv) (s : State) (m : Message)
    (own : String) (rest : List String)
    (hsid : m.sourceID = some own)
    (hdesc : conversationSourceIDsDesc s.messages m.conversationID = own :: rest)
    (hlen : 20 ≤ rest.length) (hnodup : own ∉ rest) (hsrc : env.srcIDsOK = true) :
    (computeThreadingHeaders env s m).references = (rest.take 19).reverse ∧
    (computeThreadingHeaders env s m).references.length = 19 ∧
    (computeThreadingHeaders env s m).inReplyTo = rest.headD "" := by
  obtain ⟨r0, rest', hrest⟩ : ∃ r0 rest', rest = r0 :: rest' := by
    cases rest with
    | nil => simp at hlen
    | cons a l => exact ⟨a, l, rfl⟩
  subst hrest
  have hlen' : 19 ≤ rest'.length := by
    simp only [List.length_cons] at hlen
    omega
  have h20 : GetMessageSourceIDs s.messages m.conversationID 20 =
      own :: (r0 :: rest').take 19 := by
    unfold GetMessageSourceIDs
    rw [hdesc]
    rw [show (20 : Nat) = 19 + 1 from rfl]
    rw [List.take_succ_cons]
  have hrefs : removeItemByValue (GetMessageSourceIDs s.messages m.conversationID 20).reverse
      (m.sourceID.getD "") = ((r0 :: rest').take 19).reverse := by
    rw [h20, hsid]
    simp only [Option.getD_some]
    rw [List.reverse_cons]
    unfold removeItemByValue
    rw [List.filter_append]
    have h1 : ((r0 :: rest').take 19).reverse.filter (fun x => x ≠ own) =
        ((r0 :: rest').take 19).reverse := by
      apply List.filter_eq_self.mpr
      intro a hamem
      rw [List.mem_reverse] at hamem
      have hmem2 : a ∈ r0 :: rest' := List.mem_of_mem_take hamem
      simp only [ne_eq, decide_eq_true_eq]
      intro heq
      subst heq
      exact hnodup hmem2
    have h2 : [own].filter (fun x => (x ≠ own : Bool)) = [] := by simp
    rw [h1, h2, List.append_nil]
  have hlenrefs : (((r0 :: rest').take 19).reverse).length = 19 := by
    rw [List.length_reverse, List.length_take]
    simp only [List.length_cons]
    omega
  simp only [computeThreadingHeaders, hsrc, if_true, hrefs]
  refine ⟨?_, ?_, ?_⟩
  · split
    all_goals rfl
  · split
    all_goals exact hlenrefs
  · rw [if_pos (show (((r0 :: rest').take 19).reverse).length > 0 by rw [hlenrefs]; omega)]
    show (((r0 :: rest').take 19).reverse).getLastD "" = (r0 :: rest').headD ""
    have htake : (r0 :: rest').take 19 = r0 :: rest'.take 18 := by
      rw [show (19 : Nat) = 18 + 1 from rfl]
      rw [List.take_succ_cons]
    rw [htake, List.reverse_cons]
    exact List.getLastD_concat _ _ _

theorem send_failed_observables (now : Nat) (env : SendEnv) (s : State) (message : Message)
    (hcore : sendOutgoingMessageCore now env s message =
      UpdateMessageStatus s message.uuid .failed) :
    (sendOutgoingMessage now env s message).messages =
      s.messages.map (messageStatusRow message.uuid MessageStatus.failed) ∧
    (sendOutgoingMessage now env s message).conversations = s.conversations ∧
    (sendOutgoingMessage now env s message).sentMessages = s.sentMessages ∧
    (sendOutgoingMessage now env s message).slaMetEvents = s.slaMetEvents ∧
    (sendOutgoingMessage now env s message).automationEvents = s.automationEvents := by
  obtain ⟨o1, o2, o3, o4, o5⟩ := sendOutgoingMessage_observables now env s message
  obtain ⟨f1, f2, f3, f4, f5⟩ := UpdateMessageStatus_frame s message.uuid .failed
  rw [o1, o2, o3, o4, o5, hcore]
  exact ⟨f1, f2, f3, f4, f5⟩

/-- C4 (amended): a failure at inbox resolution, template rendering,
attachment reconstitution, or the adapter send marks the message Failed and
stops the pipeline — in particular, on an adapter-send error the reply
timestamps, waiting-since marker, SLA-met events and outgoing-message
automation hook are all untouched. A threading-header fetch failure, by
contrast, is only logged and the send proceeds. -/
theorem send_pipeline_failure_handling
    (now : Nat) (env : SendEnv) (s : State) (message : Message) :
    (s.inboxes.find? (fun ib => ib.id = message.inboxID) = none →
      (sendOutgoingMessage now env s message).messages =
        s.messages.map (messageStatusRow message.uuid MessageStatus.failed) ∧
      (sendOutgoingMessage now env s message).conversations = s.conversations ∧
      (sendOutgoingMessage now env s message).sentMessages = s.sentMessages ∧
      (sendOutgoingMessage now env s message).slaMetEvents = s.slaMetEvents ∧
      (sendOutgoingMessage now env s message).automationEvents = s.automationEvents) ∧
    (∀ inbox, s.inboxes.find? (fun ib => ib.id = message.inboxID) = some inbox →
      RenderMessageInTemplate env s inbox.channel message = none →
      (sendOutgoingMessage now env s message).messages =
        s.messages.map (messageStatusRow message.uuid MessageStatus.failed) ∧
      (sendOutgoingMessage now env s message).conversations = s.conversations ∧
      (sendOutgoingMessage now env s message).sentMessages = s.sentMessages ∧
      (sendOutgoingMessage now env s message).slaMetEvents = s.slaMetEvents ∧
      (sendOutgoingMessage now env s message).automationEvents = s.automationEvents) ∧
    (∀ inbox, s.inboxes.find? (fun ib => ib.id = message.inboxID) = some inbox →
      RenderMessageInTemplate env s inbox.channel message = some message →
      env.attachOK = false →
      (sendOutgoingMessage now env s message).messages =
        s.messages.map (messageStatusRow message.uuid MessageStatus.failed) ∧
      (sendOutgoingMessage now env s message).conversations = s.conversations ∧
      (sendOutgoingMessage now env s message).sentMessages = s.sentMessages ∧
      (sendOutgoingMessage now env s message).slaMetEvents = s.slaMetEvents ∧
      (sendOutgoingMessage now env s message).automationEvents = s.automationEvents) ∧
    (∀ inbox, s.inboxes.find? (fun ib => ib.id = message.inboxID) = some inbox →
      RenderMessageInTemplate env s inbox.channel message = some message →
      env.attachOK = true → env.sendOK = false →
      (sendOutgoingMessage now env s message).messages =
        s.messages.map (messageStatusRow message.uuid MessageStatus.failed) ∧
      (sendOutgoingMessage now env s message).conversations = s.conversations ∧
      (sendOutgoingMessage now env s message).sentMessages = s.sentMessages ∧
      (sendOutgoingMessage now env s message).slaMetEvents = s.slaMetEvents ∧
      (sendOutgoingMessage now env s message).automationEvents = s.automationEvents) := by
  refine ⟨?_, ?_, ?_, ?_⟩
  · intro h
    exact send_failed_observables now env s message (sendCore_inbox_missing now env s message h)
  · intro inbox h hr
    exact send_failed_observables now env s message (sendCore_render_fail now env s message inbox h hr)
  · intro inbox h hr ha
    exact send_failed_observables now env s message (sendCore_attach_fail now env s message inbox h hr ha)
  · intro inbox h hr ha hsend
    exact send_failed_observables now env s message (sendCore_send_fail now env s message inbox h hr ha hsend)

/-- C2 (amended): for an outbound message in a conversation with at least 20
prior messages carrying source ids, the pipeline fetches the 20 most recent
source ids — which include the message's own id, the newest — reverses them
to oldest-first and strips the own id, so the References header holds the 19
most recent prior source ids oldest-first, and In-Reply-To is its last
element, the most recent prior id. -/
theorem references_nineteen_prior
    (now : Nat) (env : SendEnv) (s : State) (message : Message) (inbox : Inbox)
    (own : String) (rest : List String)
    (hsid : message.sourceID = some own)
    (hdesc : conversationSourceIDsDesc s.messages message.conversationID = own :: rest)
    (hlen : 20 ≤ rest.length)
    (hnodup : own ∉ rest)
    (hinbox : s.inboxes.find? (fun ib => ib.id = message.inboxID) = some inbox)
    (hchan : inbox.channel = ChannelEmail)
    (hc : (GetConversation s.conversations 0 message.conversationUUID "").isSome)
    (hagent : (s.agents.find? (fun a => a.id = message.senderID)).isSome)
    (hrok : env.renderOK = true)
    (haok : env.attachOK = true)
    (hsrcok : env.srcIDsOK = true)
    (hsend : env.sendOK = true) :
    ∃ m, (sendOutgoingMessage now env s message).sentMessages = s.sentMessages ++ [m] ∧
      m.references = (rest.take 19).reverse ∧
      m.references.length = 19 ∧
      m.inReplyTo = rest.headD "" := by
  have hr := render_some env s inbox.channel message hchan hc hagent hrok
  have hcore := sendCore_success now env s message inbox hinbox hr haok hsend
  set MF : Message := setFromHeader s inbox { message with attachments := env.blobs } with hMF
  set MT : Message := computeThreadingHeaders env s MF with hMT
  set MA : Message := absolutizeContent env MT with hMA
  have hsid2 : MF.sourceID = some own := by
    rw [hMF, setFromHeader_sourceID]
    exact hsid
  have hdesc2 : conversationSourceIDsDesc s.messages MF.conversationID = own :: rest := by
    rw [hMF, setFromHeader_conversationID]
    exact hdesc
  obtain ⟨ht1, ht2, ht3⟩ := computeThreadingHeaders_spec env s MF own rest hsid2 hdesc2 hlen hnodup hsrcok
  refine ⟨MA, ?_, ?_, ?_, ?_⟩
  · obtain ⟨_, _, ho3, _, _⟩ := sendOutgoingMessage_observables now env s message
    rw [ho3, hcore, postSendUpdates_sentMessages, (UpdateMessageStatus_frame _ _ _).2.2.1]
  · rw [hMA, absolutizeContent_references]
    exact ht1
  · rw [hMA, absolutizeContent_references]
    exact ht2
  · rw [hMA, absolutizeContent_inReplyTo]
    exact ht3

/-- Concrete fixture: a conversation with 21 messages carrying source ids
"s1".."s21", an email inbox, a named agent and the system user. -/
def cx4Conv : Conversation := { id := 1, uuid := "c1", contactID := 1, contactEmail := "a@x" }

/-- Concrete fixture: the 21 stored messages. -/
def cx4Msgs : List Message := (List.range 21).map (fun i => { id := i + 1, uuid := "m" ++ toString (i + 1), conversationID := 1, conversationUUID := "c1", sourceID := some ("s" ++ toString (i + 1)) })

/-- Concrete fixture: the full store for the outbound-send runs. -/
def cx4State : State := { conversations := [cx4Conv], messages := cx4Msgs, inboxes := [{ id := 5, channel := "email", fromAddress := "Help <help@x>" }], agents := [{ id := 9, firstName := "Ann", lastName := "Lee" }, { id := 7, isSystem := true }] }

/-- Concrete fixture: the outbound message, the newest of the conversation. -/
def cx4Msg : Message := { id := 21, uuid := "m21", conversationID := 1, conversationUUID := "c1", senderID := 9, inboxID := 5, sourceID := some "s21", status := .pending }

/-- C2 counterexample: the conversation has 20 prior messages with source
ids, yet the constructed References header holds 19 entries, not 20 — the
fetch of the newest 20 includes the message's own id, which is then
stripped. -/
theorem references_twenty_counterexample :
    20 ≤ ((conversationSourceIDsDesc cx4State.messages 1).drop 1).length ∧
    (sendOutgoingMessage 99 {} cx4State cx4Msg).sentMessages.map
      (fun m => m.references.length) = [19] := by
  decide

theorem references_nineteen_prior_witness :
    ∃ m, (sendOutgoingMessage 99 {} cx4State cx4Msg).sentMessages =
        cx4State.sentMessages ++ [m] ∧
      m.references = ((((conversationSourceIDsDesc cx4State.messages 1).drop 1).take 19)).reverse ∧
      m.references.length = 19 ∧
      m.inReplyTo = ((conversationSourceIDsDesc cx4State.messages 1).drop 1).headD "" :=
  references_nineteen_prior 99 {} cx4State cx4Msg
    { id := 5, channel := "email", fromAddress := "Help <help@x>" }
    "s21" ((conversationSourceIDsDesc cx4State.messages 1).drop 1)
    (by decide) (by decide) (by decide) (by decide) (by decide) (by decide) (by decide)
    (by decide) (by decide) (by decide) (by decide) (by decide)

/-- C4 counterexample: when the threading-header fetch fails but the adapter
send succeeds, the message ends in status Sent with empty References — the
pipeline does not stop, contradicting "a failure at any step sets the
message status to Failed and stops". -/
theorem threading_failure_send_proceeds :
    ((sendOutgoingMessage 99 { srcIDsOK := false } cx4State cx4Msg).messages.find?
      (fun m => m.uuid = "m21")).map (fun m => m.status) = some MessageStatus.sent ∧
    (sendOutgoingMessage 99 { srcIDsOK := false } cx4State cx4Msg).sentMessages.map
      (fun m => m.references) = [[]] := by
  decide

theorem send_pipeline_failure_handling_witness :
    (sendOutgoingMessage 99 { sendOK := false } cx4State cx4Msg).messages =
      cx4State.messages.map (messageStatusRow cx4Msg.uuid MessageStatus.failed) ∧
    (sendOutgoingMessage 99 { sendOK := false } cx4State cx4Msg).conversations =
      cx4State.conversations ∧
    (sendOutgoingMessage 99 { sendOK := false } cx4State cx4Msg).sentMessages =
      cx4State.sentMessages ∧
    (sendOutgoingMessage 99 { sendOK := false } cx4State cx4Msg).slaMetEvents =
      cx4State.slaMetEvents ∧
    (sendOutgoingMessage 99 { sendOK := false } cx4State cx4Msg).automationEvents =
      cx4State.automationEvents :=
  (send_pipeline_failure_handling 99 { sendOK := false } cx4State cx4Msg).2.2.2
    { id := 5, channel := "email", fromAddress := "Help <help@x>" }
    (by decide) (by decide) (by decide) (by decide)

theorem updateLastMessageRow_resolvedAt (cid : Nat) (cuuid lm : String) (t : Nat) (c : Conversation) :
    (updateLastMessageRow cid cuuid lm t c).resolvedAt = c.resolvedAt := by
  unfold updateLastMessageRow; split <;> rfl

theorem statusUpdateRow_uuid (now : Nat) (u : String) (st : ConvStatus) (sn : Option Nat)
    (c : Conversation) : (statusUpdateRow now u st sn c).uuid = c.uuid := by
  unfold statusUpdateRow; split <;> rfl

theorem UpdateConversationStatus_nonnoop_conversations
    (now : Nat) (s : State) (uuid : String) (actor : Agent) (conv : Conversation)
    (st : ConvStatus)
    (hconv : GetConversation s.conversations 0 uuid "" = some conv)
    (hnotsnooze : st ≠ ConvStatus.Snoozed)
    (hne : ¬(conv.status = st ∧ st ≠ ConvStatus.Snoozed)) :
    ∃ L, (UpdateConversationStatus now s uuid 0 (some st) "" actor).1.conversations =
        (s.conversations.map (statusUpdateRow now uuid st none)).map
          (updateLastMessageRow 0 uuid L now) ∧
      (UpdateConversationStatus now s uuid 0 (some st) "" actor).2 = none := by
  unfold UpdateConversationStatus
  simp only [gt_iff_lt, Nat.lt_irrefl, if_false, hnotsnooze, false_and, and_false, if_neg,
    not_false_iff, Option.map_none, hconv]
  rw [if_neg hne]
  obtain ⟨L, hL⟩ := InsertMessage_conversations now
    { execUpdateConversationStatus now s uuid st none with
      webhookEvents := (execUpdateConversationStatus now s uuid st none).webhookEvents ++
        [WebhookEvent.conversationStatusChanged uuid conv.status st] }
    { mtype := .activity, status := .sent,
      content := getMessageActivityContent .statusChange (statusName st) (fullName actor),
      contentType := ContentTypeText, conversationUUID := uuid, isPrivate := true,
      senderID := actor.id, senderType := .agent }
  refine ⟨L, ?_, ?_⟩
  · repeat' split
    all_goals exact hL
  · repeat' split
    all_goals rfl

theorem find?_uuid_map (l : List Conversation) (f : Conversation → Conversation)
    (hu : ∀ c, (f c).uuid = c.uuid) (uuid : String) :
    (l.map f).find? (fun c => c.uuid = uuid) = (l.find? (fun c => c.uuid = uuid)).map f := by
  rw [List.find?_map f l]
  have hfun : ((fun c : Conversation => (decide (c.uuid = uuid))) ∘ f) =
      (fun c : Conversation => (decide (c.uuid = uuid))) := by
    funext c
    simp [Function.comp, hu]
  rw [hfun]

theorem GetConversation_find_uuid (convs : List Conversation) (uuid : String)
    (conv : Conversation) (h : GetConversation convs 0 uuid "" = some conv) (hu : uuid ≠ "") :
    convs.find? (fun c => c.uuid = uuid) = some conv := by
  unfold GetConversation at h
  rw [← h]
  have hfun : (fun c : Conversation =>
      ((0 ≠ 0 && c.id = 0) || (uuid ≠ "" && c.uuid = uuid) ||
        (("" : String) ≠ "" && c.referenceNumber = "") : Bool)) =
      (fun c : Conversation => (decide (c.uuid = uuid))) := by
    funext c
    simp [hu]
  rw [hfun]

/-- C5: a status update where the new status equals the current one and is
not Snoozed is a complete no-op — the state is unchanged and the call
succeeds, so no activity record, webhook, broadcast, or automation
evaluation happens; and entering Resolved stamps resolved-at only the first
time — a repeated resolve keeps the original timestamp. -/
theorem update_status_noop_and_resolved_stamp
    (now : Nat) (s : State) (uuid : String) (actor : Agent) (conv : Conversation)
    (hconv : GetConversation s.conversations 0 uuid "" = some conv)
    (huuid : uuid ≠ "") :
    (∀ st, conv.status = st → st ≠ ConvStatus.Snoozed →
      UpdateConversationStatus now s uuid 0 (some st) "" actor = (s, none)) ∧
    (conv.status ≠ ConvStatus.Resolved → conv.resolvedAt = none →
      ((UpdateConversationStatus now s uuid 0 (some ConvStatus.Resolved) "" actor).1.conversations.find?
        (fun c => c.uuid = uuid)).map (fun c => (c.status, c.resolvedAt)) =
        some (ConvStatus.Resolved, some now)) ∧
    (∀ t0, conv.status ≠ ConvStatus.Resolved → conv.resolvedAt = some t0 →
      ((UpdateConversationStatus now s uuid 0 (some ConvStatus.Resolved) "" actor).1.conversations.find?
        (fun c => c.uuid = uuid)).map (fun c => c.resolvedAt) = some (some t0)) := by
  have hcu : conv.uuid = uuid := GetConversation_uuid_eq _ _ _ hconv
  refine ⟨?_, ?_, ?_⟩
  · intro st hst hsn
    unfold UpdateConversationStatus
    simp only [gt_iff_lt, Nat.lt_irrefl, if_false, hsn, false_and, if_neg, not_false_iff,
      Option.map_none, hconv]
    rw [if_pos ⟨hst, hsn⟩]
  · intro hne0 hres
    obtain ⟨L, hL, _⟩ := UpdateConversationStatus_nonnoop_conversations now s uuid actor conv
      ConvStatus.Resolved hconv (by decide) (fun h => hne0 h.1)
    rw [hL, find?_uuid_map _ _ (fun c => updateLastMessageRow_uuid _ _ _ _ c) uuid,
      find?_uuid_map _ _ (fun c => statusUpdateRow_uuid _ _ _ _ c) uuid,
      GetConversation_find_uuid s.conversations uuid conv hconv huuid]
    simp [updateLastMessageRow_status, updateLastMessageRow_resolvedAt, statusUpdateRow, hcu, hres]
  · intro t0 hne0 hres
    obtain ⟨L, hL, _⟩ := UpdateConversationStatus_nonnoop_conversations now s uuid actor conv
      ConvStatus.Resolved hconv (by decide) (fun h => hne0 h.1)
    rw [hL, find?_uuid_map _ _ (fun c => updateLastMessageRow_uuid _ _ _ _ c) uuid,
      find?_uuid_map _ _ (fun c => statusUpdateRow_uuid _ _ _ _ c) uuid,
      GetConversation_find_uuid s.conversations uuid conv hconv huuid]
    simp [updateLastMessageRow_resolvedAt, statusUpdateRow, hcu, hres]

/-- Concrete fixture: a single open conversation. -/
def w5Conv : Conversation := { id := 1, uuid := "c1", contactID := 1, contactEmail := "a@x" }

/-- Concrete fixture: the store holding only `w5Conv`. -/
def w5State : State := { conversations := [w5Conv] }

theorem update_status_noop_and_resolved_stamp_witness :
    UpdateConversationStatus 50 w5State "c1" 0 (some ConvStatus.Open) "" { id := 9 } =
      (w5State, none) ∧
    ((UpdateConversationStatus 50 w5State "c1" 0 (some ConvStatus.Resolved) "" { id := 9 }).1.conversations.find?
      (fun c => c.uuid = "c1")).map (fun c => (c.status, c.resolvedAt)) =
      some (ConvStatus.Resolved, some 50) :=
  ⟨(update_status_noop_and_resolved_stamp 50 w5State "c1" { id := 9 } w5Conv (by decide)
      (by decide)).1 ConvStatus.Open (by decide) (by decide),
    (update_status_noop_and_resolved_stamp 50 w5State "c1" { id := 9 } w5Conv (by decide)
      (by decide)).2.1 (by decide) (by decide)⟩

/-- C7 (amended): while the queue is open, an enqueue with the buffer at
capacity rejects immediately with a queue-full error and does not add the
item; with free capacity the item is appended and nil is returned; after
`Close` has set the closed flag, the call rejects with a queue-closed error
regardless of capacity. -/
theorem enqueue_capacity_behavior (q : IncomingQueue) (msg : IncomingMessage) :
    (q.closed = false → q.capacity ≤ q.items.length →
      EnqueueIncoming q msg = (q, some "incoming message queue is full")) ∧
    (q.closed = false → q.items.length < q.capacity →
      EnqueueIncoming q msg = ({ q with items := q.items ++ [msg] }, none)) ∧
    (q.closed = true →
      EnqueueIncoming q msg = (q, some "incoming message queue is closed")) := by
  unfold EnqueueIncoming
  refine ⟨?_, ?_, ?_⟩
  · intro h1 h2
    simp [h1, Nat.not_lt.mpr h2]
  · intro h1 h2
    simp [h1, h2]
  · intro h1
    simp [h1]

/-- C7 counterexample: a closed queue with free capacity (capacity 1, empty
buffer) rejects the item with a queue-closed error instead of accepting it,
so the claim's unconditional "free capacity implies accepted" fails. -/
theorem enqueue_closed_counterexample :
    (({ capacity := 1, items := [], closed := true } : IncomingQueue).items.length <
      ({ capacity := 1, items := [], closed := true } : IncomingQueue).capacity) ∧
    (EnqueueIncoming { capacity := 1, items := [], closed := true } {}).2 =
      some "incoming message queue is closed" ∧
    (EnqueueIncoming { capacity := 1, items := [], closed := true } {}).1.items = [] := by
  decide

theorem enqueue_capacity_behavior_witness :
    EnqueueIncoming { capacity := 1, items := [{}], closed := false } {} =
      ({ capacity := 1, items := [{}], closed := false }, some "incoming message queue is full") ∧
    EnqueueIncoming { capacity := 2, items := [{}], closed := false } {} =
      ({ capacity := 2, items := [{}, {}], closed := false }, none) :=
  ⟨(enqueue_capacity_behavior { capacity := 1, items := [{}], closed := false } {}).1
      (by decide) (by decide),
    (enqueue_capacity_behavior { capacity := 2, items := [{}], closed := false } {}).2.1
      (by decide) (by decide)⟩

theorem pair_unique {α β : Type} (l : List (α × β)) (hnodup : (l.map (fun p => p.1)).Nodup)
    (a : α) (b c : β) (hb : (a, b) ∈ l) (hc : (a, c) ∈ l) : b = c := by
  induction l with
  | nil => cases hb
  | cons hd tl ih =>
    rw [List.map_cons, List.nodup_cons] at hnodup
    rcases List.mem_cons.mp hb with hb1 | hb2
    · rcases List.mem_cons.mp hc with hc1 | hc2
      · have h := hb1.trans hc1.symm
        exact (Prod.ext_iff.mp h).2
      · exfalso
        apply hnodup.1
        rw [← hb1]
        exact List.mem_map_of_mem (fun p => p.1) hc2
    · rcases List.mem_cons.mp hc with hc1 | hc2
      · exfalso
        apply hnodup.1
        rw [← hc1]
        exact List.mem_map_of_mem (fun p => p.1) hb2
      · exact ih hnodup.2 hb2 hc2

theorem notPending_not_picked (db : List (Nat × MessageStatus)) (excluded : List Nat)
    (mid : Nat) (st : MessageStatus)
    (hmem : (mid, st) ∈ db) (hnodup : (db.map (fun p => p.1)).Nodup)
    (hst : st ≠ MessageStatus.pending) :
    mid ∉ GetOutgoingPendingMessages db excluded := by
  intro hpick
  unfold GetOutgoingPendingMessages at hpick
  rw [List.mem_map] at hpick
  obtain ⟨p, hp, hpe⟩ := hpick
  rw [List.mem_filter] at hp
  obtain ⟨hpdb, hcond⟩ := hp
  simp only [Bool.and_eq_true, decide_eq_true_eq, Bool.not_eq_true'] at hcond
  have hpair : (mid, p.2) ∈ db := by
    rw [← hpe]
    exact hpdb
  have := pair_unique db hnodup mid st p.2 hmem hpair
  rw [this] at hst
  exact hst hcond.1

/-- C8: `InsertMessage` stores a private message with status Sent regardless
of the status supplied by the caller, and the dispatch scanner's
pending-message selection only ever picks Pending rows — so a private
message is never in Pending and never picked up by the scanner. -/
theorem private_message_sent_status
    (now : Nat) (s : State) (message : Message)
    (hpriv : message.isPrivate = true) :
    (InsertMessage now s message).2.status = MessageStatus.sent ∧
    ((InsertMessage now s message).1.messages.getLast?).map (fun m => m.status) =
      some MessageStatus.sent ∧
    (∀ db excluded mid st, (mid, st) ∈ db → (db.map (fun p => p.1)).Nodup →
      st ≠ MessageStatus.pending → mid ∉ GetOutgoingPendingMessages db excluded) := by
  have hstatus : (InsertMessage now s message).2.status = MessageStatus.sent := by
    simp only [InsertMessage, hpriv, if_true]
    split
    all_goals rfl
  refine ⟨hstatus, ?_, ?_⟩
  · rw [InsertMessage_messages, List.getLast?_concat, Option.map_some']
    rw [hstatus]
  · intro db excluded mid st hmem hnodup hst
    exact notPending_not_picked db excluded mid st hmem hnodup hst

/-- Concrete fixture: a private note submitted with status Pending. -/
def w8Msg : Message := { conversationUUID := "c1", isPrivate := true, status := MessageStatus.pending }

theorem private_message_sent_status_witness :
    (InsertMessage 10 {} w8Msg).2.status = MessageStatus.sent ∧
    ((InsertMessage 10 {} w8Msg).1.messages.getLast?).map (fun m => m.status) =
      some MessageStatus.sent ∧
    (∀ db excluded mid st, (mid, st) ∈ db → (db.map (fun p => p.1)).Nodup →
      st ≠ MessageStatus.pending → mid ∉ GetOutgoingPendingMessages db excluded) :=
  private_message_sent_status 10 {} w8Msg (by decide)

theorem pending_nodup (db : List (Nat × MessageStatus)) (excluded : List Nat)
    (hnodup : (db.map (fun p => p.1)).Nodup) :
    (GetOutgoingPendingMessages db excluded).Nodup := by
  unfold GetOutgoingPendingMessages
  exact List.Nodup.sublist ((List.filter_sublist db).map (fun p => p.1)) hnodup

theorem pending_not_tracked (db : List (Nat × MessageStatus)) (excluded : List Nat)
    (mid : Nat) (h : mid ∈ GetOutgoingPendingMessages db excluded) : mid ∉ excluded := by
  unfold GetOutgoingPendingMessages at h
  rw [List.mem_map] at h
  obtain ⟨p, hp, hpe⟩ := h
  rw [List.mem_filter] at hp
  simp only [Bool.and_eq_true, Bool.not_eq_true'] at hp
  intro hmem
  rw [← hpe] at hmem
  have : excluded.contains p.1 = true := by simpa using hmem
  rw [hp.2.2] at this
  cases this

/-- C9: the dispatch-safety invariant — each message id occurs at most once
across the outgoing queue and the in-flight worker set, and every such id
is recorded in the in-flight tracker — is preserved by a scanner tick
(which records ids in the tracker before enqueueing and skips tracked ids),
by a worker taking a message off the queue, and by the send pipeline
finishing (whose deferred cleanup removes the tracker entry); moreover the
scanner never selects a message whose status is not Pending — an
already-Sent message is never re-enqueued — never selects a tracked id, and
finishing a dispatch removes the id from the tracker. -/
theorem dispatch_at_most_once (d : DispatchState) (hinv : DispatchInv d) :
    DispatchInv (scanTick d) ∧
    DispatchInv (startDispatch d) ∧
    (∀ mid ok, DispatchInv (finishDispatch d mid ok)) ∧
    (∀ mid st, (mid, st) ∈ d.db → st ≠ MessageStatus.pending →
      mid ∉ GetOutgoingPendingMessages d.db d.tracker) ∧
    (∀ mid, mid ∈ GetOutgoingPendingMessages d.db d.tracker → mid ∉ d.tracker) ∧
    (∀ mid ok, mid ∈ d.inflight → mid ∉ (finishDispatch d mid ok).tracker) := by
  obtain ⟨h1, h2, h3⟩ := hinv
  refine ⟨?_, ?_, ?_, ?_, ?_, ?_⟩
  · -- scanner tick
    unfold scanTick DispatchInv
    refine ⟨?_, ?_, h3⟩
    · have hPnodup : (GetOutgoingPendingMessages d.db d.tracker).Nodup :=
        pending_nodup d.db d.tracker h3
      have hperm : List.Perm ((d.queue ++ GetOutgoingPendingMessages d.db d.tracker) ++ d.inflight)
          ((d.queue ++ d.inflight) ++ GetOutgoingPendingMessages d.db d.tracker) := by
        rw [List.append_assoc, List.append_assoc]
        exact List.Perm.append_left d.queue List.perm_append_comm
      apply (hperm.symm).nodup
      apply List.Nodup.append h1 hPnodup
      intro x hxq hxP
      exact pending_not_tracked d.db d.tracker x hxP (h2 x hxq)
    · intro mid hmid
      rw [List.mem_append] at hmid
      rcases hmid with hq | hinf
      · rw [List.mem_append] at hq
        rcases hq with hq | hp
        · exact List.mem_append_left _ (h2 mid (List.mem_append_left _ hq))
        · exact List.mem_append_right _ hp
      · exact List.mem_append_left _ (h2 mid (List.mem_append_right _ hinf))
  · -- worker takes a message
    unfold startDispatch
    cases hq : d.queue with
    | nil => exact ⟨h1, h2, h3⟩
    | cons mid rest =>
      rw [hq] at h1 h2
      refine ⟨?_, ?_, h3⟩
      · have hperm : List.Perm (rest ++ (d.inflight ++ [mid])) ((mid :: rest) ++ d.inflight) := by
          rw [← List.append_assoc]
          exact (List.perm_append_singleton mid (rest ++ d.inflight)).trans (by rw [List.cons_append])
        exact (hperm.symm).nodup h1
      · intro x hx
        have hperm : List.Perm (rest ++ (d.inflight ++ [mid])) ((mid :: rest) ++ d.inflight) := by
          rw [← List.append_assoc]
          exact (List.perm_append_singleton mid (rest ++ d.inflight)).trans (by rw [List.cons_append])
        exact h2 x (hperm.mem_iff.mp hx)
  · -- pipeline finishes
    intro mid ok
    unfold finishDispatch
    split
    case isTrue hmem =>
      refine ⟨?_, ?_, ?_⟩
      · exact List.Nodup.sublist ((List.erase_sublist mid d.inflight).append_left d.queue) h1
      · intro x hx
        rw [List.mem_append] at hx
        have hxold : x ∈ d.queue ++ d.inflight := by
          rcases hx with hxq | hxe
          · exact List.mem_append_left _ hxq
          · exact List.mem_append_right _ (List.mem_of_mem_erase hxe)
        have hxtr := h2 x hxold
        have hxne : x ≠ mid := by
          intro heq
          subst heq
          rcases hx with hxq | hxe
          · exact (List.disjoint_of_nodup_append h1) hxq hmem
          · exact ((List.Nodup.mem_erase_iff (List.Nodup.of_append_right h1)).mp hxe).1 rfl
        rw [List.mem_filter]
        exact ⟨hxtr, by simpa using hxne⟩
      · have hkeys : ((d.db.map (fun p => if p.1 = mid then
            (p.1, if ok then MessageStatus.sent else MessageStatus.failed) else p)).map
              (fun p => p.1)) = d.db.map (fun p => p.1) := by
          rw [List.map_map]
          apply List.map_congr_left
          intro p hp
          show (if p.1 = mid then (p.1, if ok then MessageStatus.sent else MessageStatus.failed) else p).1 = p.1
          split
          all_goals rfl
        rw [hkeys]
        exact h3
    case isFalse => exact ⟨h1, h2, h3⟩
  · -- a non-Pending message is never picked
    intro mid st hmem hst
    exact notPending_not_picked d.db d.tracker mid st hmem h3 hst
  · -- a tracked id is never picked again
    intro mid hmid
    exact pending_not_tracked d.db d.tracker mid hmid
  · -- finishing removes the tracker entry
    intro mid ok hmem
    unfold finishDispatch
    rw [if_pos hmem]
    intro hcontra
    rw [List.mem_filter] at hcontra
    simp at hcontra

/-- Concrete fixture: a dispatch state with one Pending and one Sent row. -/
def w9State : DispatchState := { db := [(1, MessageStatus.pending), (2, MessageStatus.sent)], tracker := [], queue := [], inflight := [] }

theorem dispatch_at_most_once_witness :
    DispatchInv w9State ∧
    DispatchInv (scanTick w9State) ∧
    2 ∉ GetOutgoingPendingMessages w9State.db w9State.tracker :=
  ⟨by decide,
    (dispatch_at_most_once w9State (by decide)).1,
    (dispatch_at_most_once w9State (by decide)).2.2.2.1 2 MessageStatus.sent (by decide)
      (by decide)⟩

end Libredesk
